import Mathlib

/-!
Shallow embedding of the wave-simulation engine of the `gogorichie/wave`
repository.

The engine lives in two JavaScript copies inside `src/infra/main.bicep`:

* a venue-parametrised copy (`MockCrowdSector` / `MockWaveGame` /
  `mockGameAPI`, lines 359-667), embedded below in namespace `Wave`;
* an older copy parametrised only by a sector count (lines 33-315),
  embedded in namespace `WaveV1`.

JavaScript numbers are modelled as rationals (`ℚ`); the per-sector
`Math.random()` draws are passed in as explicit parameters.  Array
indexing with a possibly out-of-range index is modelled with `Option`
(`none` = the JavaScript code dereferences `undefined` and throws).
-/

namespace Wave

/-- `MockSectorState`: the four crowd-sector states. -/
inductive SectorState where
  | idle
  | anticipating
  | standing
  | seated
deriving DecidableEq, Repr

/-- `MockCrowdSector`: one crowd sector (venue-parametrised engine copy). -/
structure CrowdSector where
  sector_id : Nat
  size : Nat
  state : SectorState
  energy : ℚ
  fatigue : ℚ
  enthusiasm : ℚ
  distractions : ℚ
  timer : ℚ
  energy_drain : ℚ
deriving DecidableEq, Repr

/-- The `MockCrowdSector` constructor: `r` stands for the `Math.random()`
draw used for the enthusiasm trait. -/
def mkSector (sectorId : Nat) (size : Nat) (baseEnthusiasm : ℚ) (r : ℚ) :
    CrowdSector :=
  { sector_id := sectorId
    size := size
    state := SectorState.idle
    energy := 0.5
    fatigue := 0
    enthusiasm := r * 0.3 + (baseEnthusiasm - 0.15)
    distractions := 0
    timer := 0
    energy_drain := 0.2 }

/-- `MockCrowdSector.sit_down`. -/
def CrowdSector.sit_down (s : CrowdSector) : CrowdSector :=
  { s with state := SectorState.seated, timer := 0 }

/-- `MockCrowdSector.update(dt)`: passive fatigue decay and energy
regrowth, followed by the state-timer automatic transitions. -/
def CrowdSector.update (s0 : CrowdSector) (dt : ℚ) : CrowdSector :=
  let s1 := if s0.fatigue > 0 then
              { s0 with fatigue := max 0 (s0.fatigue - dt * 0.05) } else s0
  let s2 := if s1.energy < 1 then
              { s1 with energy := min 1 (s1.energy + dt * 0.1) } else s1
  match s2.state with
  | SectorState.standing =>
      let s3 := { s2 with timer := s2.timer + dt }
      if s3.timer > 1.5 then s3.sit_down else s3
  | SectorState.anticipating =>
      let s3 := { s2 with timer := s2.timer + dt }
      if s3.timer > 0.5 then
        { s3 with state := SectorState.idle, timer := 0 }
      else s3
  | _ => s2

/-- `MockCrowdSector.can_wave`: the readiness predicate. -/
def CrowdSector.can_wave (s : CrowdSector) : Bool :=
  decide ((s.energy * s.enthusiasm) - (s.fatigue + s.distractions) > 0.3) &&
    (decide (s.state = SectorState.idle) || decide (s.state = SectorState.seated))

/-- `MockCrowdSector.start_wave`: returns the JS boolean result together
with the mutated sector. -/
def CrowdSector.start_wave (s : CrowdSector) : Bool × CrowdSector :=
  if s.can_wave then
    (true, { s with state := SectorState.anticipating, timer := 0 })
  else
    (false, s)

/-- `MockCrowdSector.stand_up`: energy debit by the sector's
`energy_drain`, fatigue credit 0.1, both clamped. -/
def CrowdSector.stand_up (s : CrowdSector) : Bool × CrowdSector :=
  if decide (s.state = SectorState.anticipating) then
    (true, { s with state := SectorState.standing
                    timer := 0
                    energy := max 0 (s.energy - s.energy_drain)
                    fatigue := min 1 (s.fatigue + 0.1) })
  else
    (false, s)

/-- `MockCrowdSector.boost_energy(amount)` (the JS default amount is
0.3, supplied explicitly by `boost_sector`). -/
def CrowdSector.boost_energy (s : CrowdSector) (amount : ℚ) : CrowdSector :=
  { s with energy := min 1 (s.energy + amount)
           distractions := max 0 (s.distractions - 0.1) }

/-- `StadiumVenue`. -/
inductive Venue where
  | baseball
  | soccer
  | cricket
deriving DecidableEq, Repr

/-- One entry of `VENUE_CONFIGS`. -/
structure VenueConfig where
  name : String
  description : String
  num_sectors : Nat
  wave_speed : ℚ
  energy_drain : ℚ
  base_enthusiasm : ℚ
  difficulty : String
deriving DecidableEq, Repr

/-- `VENUE_CONFIGS`. -/
def venueConfig : Venue → VenueConfig
  | Venue.baseball =>
      { name := "Baseball Stadium"
        description := "Classic American ballpark - Easy difficulty"
        num_sectors := 16
        wave_speed := 0.35
        energy_drain := 0.15
        base_enthusiasm := 0.75
        difficulty := "Easy" }
  | Venue.soccer =>
      { name := "Soccer Stadium"
        description := "International football arena - Medium difficulty"
        num_sectors := 20
        wave_speed := 0.3
        energy_drain := 0.2
        base_enthusiasm := 0.70
        difficulty := "Medium" }
  | Venue.cricket =>
      { name := "Cricket Ground"
        description := "Traditional cricket oval - Hard difficulty"
        num_sectors := 24
        wave_speed := 0.25
        energy_drain := 0.25
        base_enthusiasm := 0.65
        difficulty := "Hard" }

/-- Payload of a queued event: `null`, a sector index, or the
`{combo, bonus}` object of `wave_completed`. -/
inductive EventData where
  | null
  | sector (id : Int)
  | comboBonus (combo : Nat) (bonus : ℚ)
deriving DecidableEq, Repr

/-- One entry of the `events` queue: `{type, data, time}`. -/
structure GameEvent where
  type : String
  data : EventData
  time : ℚ
deriving DecidableEq, Repr

/-- `MockWaveGame` (venue-parametrised copy): the full engine state. -/
structure WaveGame where
  venue : Venue
  venue_config : VenueConfig
  num_sectors : Nat
  sectors : List CrowdSector
  score : Int
  combo : Nat
  max_combo : Nat
  wave_active : Bool
  wave_start_sector : Int
  current_wave_sector : Int
  time_elapsed : ℚ
  successful_waves : Nat
  failed_waves : Nat
  wave_speed : ℚ
  wave_timer : ℚ
  events : List GameEvent
  stadium_level : Nat
  unlocks : List String
deriving DecidableEq, Repr

/-- JavaScript array indexing `sectors[i]` with an `Int` index:
`none` models the `undefined` result of an out-of-range access. -/
def getSector (l : List CrowdSector) (i : Int) : Option CrowdSector :=
  if 0 ≤ i then l.get? i.toNat else none

/-- In-place mutation `sectors[i] = s` (only reached with `i` in range). -/
def setSector (l : List CrowdSector) (i : Int) (s : CrowdSector) :
    List CrowdSector :=
  l.set i.toNat s

/-- The `MockWaveGame` constructor: `sz i` and `r i` stand for the two
`Math.random()` draws (size, enthusiasm) of sector `i`. -/
def mkGame (venue : Venue) (sz : Nat → Nat) (r : Nat → ℚ) : WaveGame :=
  let cfg := venueConfig venue
  { venue := venue
    venue_config := cfg
    num_sectors := cfg.num_sectors
    sectors := (List.range cfg.num_sectors).map (fun i =>
      { mkSector i (sz i) cfg.base_enthusiasm (r i) with
          energy_drain := cfg.energy_drain })
    score := 0
    combo := 0
    max_combo := 0
    wave_active := false
    wave_start_sector := -1
    current_wave_sector := -1
    time_elapsed := 0
    successful_waves := 0
    failed_waves := 0
    wave_speed := cfg.wave_speed
    wave_timer := 0
    events := []
    stadium_level := 1
    unlocks := [] }

/-- `MockWaveGame.schedule_event`. -/
def WaveGame.schedule_event (g : WaveGame) (t : String) (d : EventData) :
    WaveGame :=
  { g with events := g.events ++ [{ type := t, data := d, time := g.time_elapsed }] }

/-- `MockWaveGame.start_wave(sector_id)`: `none` models the JS
`TypeError` thrown when `sectors[sector_id]` is `undefined`. -/
def WaveGame.start_wave (g : WaveGame) (sector_id : Int) :
    Option (Bool × WaveGame) :=
  if g.wave_active then
    some (false, g)
  else
    match getSector g.sectors sector_id with
    | none => none
    | some sector =>
        let p := sector.start_wave
        if p.1 then
          some (true,
            ({ g with sectors := setSector g.sectors sector_id p.2
                      wave_active := true
                      wave_start_sector := sector_id
                      current_wave_sector := sector_id
                      wave_timer := 0 }).schedule_event "wave_started"
                        (EventData.sector sector_id))
        else
          some (false, g)

/-- `MockWaveGame.complete_wave`. -/
def WaveGame.complete_wave (g : WaveGame) : WaveGame :=
  let bonus : ℚ := 100 * (1 + (g.combo : ℚ) * 0.5)
  ({ g with wave_active := false
            successful_waves := g.successful_waves + 1
            score := g.score + ⌊bonus⌋
            max_combo := max g.max_combo g.combo }).schedule_event
    "wave_completed" (EventData.comboBonus g.combo bonus)

/-- `MockWaveGame.fail_wave`. -/
def WaveGame.fail_wave (g : WaveGame) : WaveGame :=
  ({ g with wave_active := false
            failed_waves := g.failed_waves + 1
            combo := 0 }).schedule_event "wave_failed"
    (EventData.sector g.current_wave_sector)

/-- The first wave-active block of `MockWaveGame.update`: if the current
sector is anticipating and `wave_timer > 0.2`, stand it up and score.
`current` is the value read from `sectors[current_wave_sector]`. -/
def WaveGame.standPhase (g : WaveGame) (current : CrowdSector) : WaveGame :=
  if decide (current.state = SectorState.anticipating) &&
      decide (g.wave_timer > (0.2 : ℚ)) then
    let p := current.stand_up
    let g1 := { g with sectors := setSector g.sectors g.current_wave_sector p.2 }
    if p.1 then
      let c : Nat := g1.combo + 1
      { g1 with combo := c, score := g1.score + 10 * (c : Int) }
    else g1
  else g

/-- The second wave-active block of `MockWaveGame.update`: the hand-off
check once `wave_timer >= wave_speed`. -/
def WaveGame.handoff (g : WaveGame) : Option WaveGame :=
  if decide (g.wave_timer ≥ g.wave_speed) then
    let next_sector_id : Int := (g.current_wave_sector + 1) % (g.num_sectors : Int)
    if next_sector_id = g.wave_start_sector then
      some g.complete_wave
    else
      match getSector g.sectors next_sector_id with
      | none => none
      | some next_sector =>
          let p := next_sector.start_wave
          if p.1 then
            some { g with sectors := setSector g.sectors next_sector_id p.2
                          current_wave_sector := next_sector_id
                          wave_timer := 0 }
          else
            some g.fail_wave
  else
    some g

/-- The start of `MockWaveGame.update`: clock advance and the per-sector
passive updates. -/
def WaveGame.passiveStep (g : WaveGame) (dt : ℚ) : WaveGame :=
  { g with time_elapsed := g.time_elapsed + dt
           sectors := g.sectors.map (fun s => s.update dt) }

/-- `MockWaveGame.update(dt)`. -/
def WaveGame.update (g : WaveGame) (dt : ℚ) : Option WaveGame :=
  let g1 := g.passiveStep dt
  if g1.wave_active then
    let g2 := { g1 with wave_timer := g1.wave_timer + dt }
    match getSector g2.sectors g2.current_wave_sector with
    | none => none
    | some current => (g2.standPhase current).handoff
  else
    some g1

/-- `MockWaveGame.boost_sector(sector_id)`: range-checked delegation to
`boost_energy` (with the JS default amount 0.3). -/
def WaveGame.boost_sector (g : WaveGame) (sector_id : Int) : Option WaveGame :=
  if 0 ≤ sector_id ∧ sector_id < (g.num_sectors : Int) then
    match getSector g.sectors sector_id with
    | none => none
    | some s =>
        some { g with sectors := setSector g.sectors sector_id (s.boost_energy 0.3) }
  else
    some g

/-- `MockWaveGame.get_events`: read-and-clear. -/
def WaveGame.get_events (g : WaveGame) : List GameEvent × WaveGame :=
  (g.events, { g with events := [] })

/-- `MockCrowdSector.to_dict`: the per-sector entry of `get_state`. -/
structure SectorDict where
  id : Nat
  state : SectorState
  energy : ℚ
  fatigue : ℚ
  enthusiasm : ℚ
  distractions : ℚ
deriving DecidableEq, Repr

/-- `MockCrowdSector.to_dict`. -/
def CrowdSector.to_dict (s : CrowdSector) : SectorDict :=
  { id := s.sector_id
    state := s.state
    energy := s.energy
    fatigue := s.fatigue
    enthusiasm := s.enthusiasm
    distractions := s.distractions }

/-- A parsed save-game snapshot, viewed as a JSON object in which every
field may be absent (`none` = the field is missing / `undefined`). -/
structure Snapshot where
  sectors : Option (List SectorDict)
  score : Option Int
  combo : Option Nat
  max_combo : Option Nat
  wave_active : Option Bool
  current_wave_sector : Option Int
  successful_waves : Option Nat
  failed_waves : Option Nat
  stadium_level : Option Nat
  time_elapsed : Option ℚ
  venue : Option Venue
  venue_name : Option String
  venue_difficulty : Option String
  unlocks : Option (List String)
deriving DecidableEq, Repr

/-- The snapshot `{}`: a JSON object with every engine field missing. -/
def emptySnapshot : Snapshot :=
  { sectors := none, score := none, combo := none, max_combo := none
    wave_active := none, current_wave_sector := none
    successful_waves := none, failed_waves := none, stadium_level := none
    time_elapsed := none, venue := none, venue_name := none
    venue_difficulty := none, unlocks := none }

/-- JavaScript `x || d` on an optional natural-number field: an absent
field and the falsy value `0` both fall back to the default. -/
def jsOrNat (o : Option Nat) (d : Nat) : Nat :=
  match o with
  | none => d
  | some v => if v = 0 then d else v

/-- JavaScript `x || d` on an optional integer field. -/
def jsOrInt (o : Option Int) (d : Int) : Int :=
  match o with
  | none => d
  | some v => if v = 0 then d else v

/-- `MockWaveGame.get_state` combined with the two extra fields that
`save_state` adds (`unlocks`, `venue`): the snapshot that
`JSON.stringify` then serialises. -/
def WaveGame.save_state (g : WaveGame) : Snapshot :=
  { sectors := some (g.sectors.map CrowdSector.to_dict)
    score := some g.score
    combo := some g.combo
    max_combo := some g.max_combo
    wave_active := some g.wave_active
    current_wave_sector := some g.current_wave_sector
    successful_waves := some g.successful_waves
    failed_waves := some g.failed_waves
    stadium_level := some g.stadium_level
    time_elapsed := some g.time_elapsed
    venue := some g.venue
    venue_name := some g.venue_config.name
    venue_difficulty := some g.venue_config.difficulty
    unlocks := some g.unlocks }

/-- `MockWaveGame.load_state(json_str)` after a successful `JSON.parse`:
only `score`, `max_combo`, `successful_waves`, `stadium_level` and
`unlocks` are assigned, each through JavaScript `|| default`. -/
def WaveGame.load_state (g : WaveGame) (st : Snapshot) : WaveGame :=
  { g with score := jsOrInt st.score 0
           max_combo := jsOrNat st.max_combo 0
           successful_waves := jsOrNat st.successful_waves 0
           stadium_level := jsOrNat st.stadium_level 1
           unlocks := st.unlocks.getD [] }

/-- Result object of `mockGameAPI.load_game`. -/
inductive LoadStatus where
  | loaded
  | error
deriving DecidableEq, Repr

/-- `mockGameAPI.load_game(save_data)`: the argument is the outcome of
`JSON.parse` (`none` = the parse threw, caught by the `try`/`catch`). -/
def WaveGame.load_game (g : WaveGame) (parsed : Option Snapshot) :
    LoadStatus × WaveGame :=
  match parsed with
  | none => (LoadStatus.error, g)
  | some st => (LoadStatus.loaded, g.load_state st)

/-- Modelled from the spec: the ring neighbourhood hit by the mascot —
the target sector plus its two immediate neighbours modulo the sector
count. -/
def mascotNbhd (target n : Int) : List Int :=
  [(target + n - 1) % n, target, (target + 1) % n]

/-- Modelled from the spec: the `trigger_event` stadium-event operation
with `event_type = "mascot"` is implemented in `game_engine.py`, which
is not under `src/` (the `mockGameAPI` copy in `src/infra/main.bicep`
does not define `trigger_event`; `src/main.js` only calls it).  Spec
section 4.3: the mascot increases `distractions` by 0.3 on the target
sector and its two immediate ring neighbours (3 sectors) and emits a
`mascot` event; no state-machine transition. -/
def WaveGame.trigger_mascot (g : WaveGame) (target : Int) : WaveGame :=
  ({ g with sectors := g.sectors.map (fun (s : CrowdSector) =>
      if (s.sector_id : Int) ∈ mascotNbhd target (g.num_sectors : Int) then
        { s with distractions := s.distractions + 0.3 }
      else s) }).schedule_event "mascot" (EventData.sector target)

/-- Modelled from the spec: `trigger_event` with
`event_type = "scoreboard"` (same missing source as `trigger_mascot`).
Spec section 4.3: the scoreboard increases `energy` by 0.2 on every
sector through the clamped setter and emits a `scoreboard` event; no
state-machine transition. -/
def WaveGame.trigger_scoreboard (g : WaveGame) : WaveGame :=
  ({ g with sectors := g.sectors.map (fun (s : CrowdSector) =>
      { s with energy := min 1 (s.energy + 0.2) }) }).schedule_event
    "scoreboard" EventData.null

/-- One engine API operation, for statements quantifying over call
sequences. -/
inductive Op where
  | update (dt : ℚ)
  | start_wave (sector_id : Int)
  | boost (sector_id : Int)
deriving DecidableEq, Repr

/-- A caller-side well-formedness condition on one operation: elapsed
time fed to `update` is non-negative. -/
def Op.wf : Op → Prop
  | Op.update dt => 0 ≤ dt
  | Op.start_wave _ => True
  | Op.boost _ => True

/-- Run one engine API operation (`none` = a JS exception). -/
def WaveGame.step (g : WaveGame) : Op → Option WaveGame
  | Op.update dt => g.update dt
  | Op.start_wave sector_id => (g.start_wave sector_id).map Prod.snd
  | Op.boost sector_id => g.boost_sector sector_id

/-- Run a sequence of engine API operations. -/
def WaveGame.run (g : WaveGame) : List Op → Option WaveGame
  | [] => some g
  | op :: ops =>
      match g.step op with
      | none => none
      | some g1 => g1.run ops

end Wave

namespace WaveV1

open Wave (SectorState EventData GameEvent Op)

/-- `MockCrowdSector` of the older engine copy (`src/infra/main.bicep`
lines 40-121): no `energy_drain` field. -/
structure CrowdSector where
  sector_id : Nat
  size : Nat
  state : SectorState
  energy : ℚ
  fatigue : ℚ
  enthusiasm : ℚ
  distractions : ℚ
  timer : ℚ
deriving DecidableEq, Repr

/-- The older `MockCrowdSector` constructor: enthusiasm is
`Math.random() * 0.3 + 0.6`. -/
def mkSector (sectorId : Nat) (size : Nat) (r : ℚ) : CrowdSector :=
  { sector_id := sectorId
    size := size
    state := SectorState.idle
    energy := 0.5
    fatigue := 0
    enthusiasm := r * 0.3 + 0.6
    distractions := 0
    timer := 0 }

/-- Older `MockCrowdSector.sit_down`. -/
def CrowdSector.sit_down (s : CrowdSector) : CrowdSector :=
  { s with state := SectorState.seated, timer := 0 }

/-- Older `MockCrowdSector.update(dt)`. -/
def CrowdSector.update (s0 : CrowdSector) (dt : ℚ) : CrowdSector :=
  let s1 := if s0.fatigue > 0 then
              { s0 with fatigue := max 0 (s0.fatigue - dt * 0.05) } else s0
  let s2 := if s1.energy < 1 then
              { s1 with energy := min 1 (s1.energy + dt * 0.1) } else s1
  match s2.state with
  | SectorState.standing =>
      let s3 := { s2 with timer := s2.timer + dt }
      if s3.timer > 1.5 then s3.sit_down else s3
  | SectorState.anticipating =>
      let s3 := { s2 with timer := s2.timer + dt }
      if s3.timer > 0.5 then
        { s3 with state := SectorState.idle, timer := 0 }
      else s3
  | _ => s2

/-- Older `MockCrowdSector.can_wave`. -/
def CrowdSector.can_wave (s : CrowdSector) : Bool :=
  decide ((s.energy * s.enthusiasm) - (s.fatigue + s.distractions) > 0.3) &&
    (decide (s.state = SectorState.idle) || decide (s.state = SectorState.seated))

/-- Older `MockCrowdSector.start_wave`. -/
def CrowdSector.start_wave (s : CrowdSector) : Bool × CrowdSector :=
  if s.can_wave then
    (true, { s with state := SectorState.anticipating, timer := 0 })
  else
    (false, s)

/-- Older `MockCrowdSector.stand_up`: the energy debit is the literal
0.2 (this copy has no per-venue `energy_drain`). -/
def CrowdSector.stand_up (s : CrowdSector) : Bool × CrowdSector :=
  if decide (s.state = SectorState.anticipating) then
    (true, { s with state := SectorState.standing
                    timer := 0
                    energy := max 0 (s.energy - 0.2)
                    fatigue := min 1 (s.fatigue + 0.1) })
  else
    (false, s)

/-- Older `MockCrowdSector.boost_energy(amount)`. -/
def CrowdSector.boost_energy (s : CrowdSector) (amount : ℚ) : CrowdSector :=
  { s with energy := min 1 (s.energy + amount)
           distractions := max 0 (s.distractions - 0.1) }

/-- `MockWaveGame` of the older engine copy: parametrised by a sector
count, no venue fields, `wave_speed` fixed at 0.3. -/
structure WaveGame where
  num_sectors : Nat
  sectors : List CrowdSector
  score : Int
  combo : Nat
  max_combo : Nat
  wave_active : Bool
  wave_start_sector : Int
  current_wave_sector : Int
  time_elapsed : ℚ
  successful_waves : Nat
  failed_waves : Nat
  wave_speed : ℚ
  wave_timer : ℚ
  events : List GameEvent
  stadium_level : Nat
  unlocks : List String
deriving DecidableEq, Repr

/-- JavaScript array indexing, as in the newer copy. -/
def getSector (l : List CrowdSector) (i : Int) : Option CrowdSector :=
  if 0 ≤ i then l.get? i.toNat else none

/-- In-place array element assignment. -/
def setSector (l : List CrowdSector) (i : Int) (s : CrowdSector) :
    List CrowdSector :=
  l.set i.toNat s

/-- The older `MockWaveGame` constructor (`num_sectors` defaults to 16
in JS). -/
def mkGame (num_sectors : Nat) (sz : Nat → Nat) (r : Nat → ℚ) : WaveGame :=
  { num_sectors := num_sectors
    sectors := (List.range num_sectors).map (fun i => mkSector i (sz i) (r i))
    score := 0
    combo := 0
    max_combo := 0
    wave_active := false
    wave_start_sector := -1
    current_wave_sector := -1
    time_elapsed := 0
    successful_waves := 0
    failed_waves := 0
    wave_speed := 0.3
    wave_timer := 0
    events := []
    stadium_level := 1
    unlocks := [] }

/-- Older `MockWaveGame.schedule_event`. -/
def WaveGame.schedule_event (g : WaveGame) (t : String) (d : EventData) :
    WaveGame :=
  { g with events := g.events ++ [{ type := t, data := d, time := g.time_elapsed }] }

/-- Older `MockWaveGame.start_wave(sector_id)`. -/
def WaveGame.start_wave (g : WaveGame) (sector_id : Int) :
    Option (Bool × WaveGame) :=
  if g.wave_active then
    some (false, g)
  else
    match getSector g.sectors sector_id with
    | none => none
    | some sector =>
        let p := sector.start_wave
        if p.1 then
          some (true,
            ({ g with sectors := setSector g.sectors sector_id p.2
                      wave_active := true
                      wave_start_sector := sector_id
                      current_wave_sector := sector_id
                      wave_timer := 0 }).schedule_event "wave_started"
                        (EventData.sector sector_id))
        else
          some (false, g)

/-- Older `MockWaveGame.complete_wave`. -/
def WaveGame.complete_wave (g : WaveGame) : WaveGame :=
  let bonus : ℚ := 100 * (1 + (g.combo : ℚ) * 0.5)
  ({ g with wave_active := false
            successful_waves := g.successful_waves + 1
            score := g.score + ⌊bonus⌋
            max_combo := max g.max_combo g.combo }).schedule_event
    "wave_completed" (EventData.comboBonus g.combo bonus)

/-- Older `MockWaveGame.fail_wave`. -/
def WaveGame.fail_wave (g : WaveGame) : WaveGame :=
  ({ g with wave_active := false
            failed_waves := g.failed_waves + 1
            combo := 0 }).schedule_event "wave_failed"
    (EventData.sector g.current_wave_sector)

/-- First wave-active block of the older `MockWaveGame.update`. -/
def WaveGame.standPhase (g : WaveGame) (current : CrowdSector) : WaveGame :=
  if decide (current.state = SectorState.anticipating) &&
      decide (g.wave_timer > (0.2 : ℚ)) then
    let p := current.stand_up
    let g1 := { g with sectors := setSector g.sectors g.current_wave_sector p.2 }
    if p.1 then
      let c : Nat := g1.combo + 1
      { g1 with combo := c, score := g1.score + 10 * (c : Int) }
    else g1
  else g

/-- Hand-off block of the older `MockWaveGame.update`. -/
def WaveGame.handoff (g : WaveGame) : Option WaveGame :=
  if decide (g.wave_timer ≥ g.wave_speed) then
    let next_sector_id : Int := (g.current_wave_sector + 1) % (g.num_sectors : Int)
    if next_sector_id = g.wave_start_sector then
      some g.complete_wave
    else
      match getSector g.sectors next_sector_id with
      | none => none
      | some next_sector =>
          let p := next_sector.start_wave
          if p.1 then
            some { g with sectors := setSector g.sectors next_sector_id p.2
                          current_wave_sector := next_sector_id
                          wave_timer := 0 }
          else
            some g.fail_wave
  else
    some g

/-- Clock advance and passive per-sector updates of the older
`MockWaveGame.update`. -/
def WaveGame.passiveStep (g : WaveGame) (dt : ℚ) : WaveGame :=
  { g with time_elapsed := g.time_elapsed + dt
           sectors := g.sectors.map (fun s => s.update dt) }

/-- Older `MockWaveGame.update(dt)`. -/
def WaveGame.update (g : WaveGame) (dt : ℚ) : Option WaveGame :=
  let g1 := g.passiveStep dt
  if g1.wave_active then
    let g2 := { g1 with wave_timer := g1.wave_timer + dt }
    match getSector g2.sectors g2.current_wave_sector with
    | none => none
    | some current => (g2.standPhase current).handoff
  else
    some g1

/-- Older `MockWaveGame.boost_sector(sector_id)`. -/
def WaveGame.boost_sector (g : WaveGame) (sector_id : Int) : Option WaveGame :=
  if 0 ≤ sector_id ∧ sector_id < (g.num_sectors : Int) then
    match getSector g.sectors sector_id with
    | none => none
    | some s =>
        some { g with sectors := setSector g.sectors sector_id (s.boost_energy 0.3) }
  else
    some g

/-- Older `MockWaveGame.get_events`. -/
def WaveGame.get_events (g : WaveGame) : List GameEvent × WaveGame :=
  (g.events, { g with events := [] })

/-- Run one engine API operation on the older engine. -/
def WaveGame.step (g : WaveGame) : Op → Option WaveGame
  | Op.update dt => g.update dt
  | Op.start_wave sector_id => (g.start_wave sector_id).map Prod.snd
  | Op.boost sector_id => g.boost_sector sector_id

/-- Run a sequence of engine API operations on the older engine. -/
def WaveGame.run (g : WaveGame) : List Op → Option WaveGame
  | [] => some g
  | op :: ops =>
      match g.step op with
      | none => none
      | some g1 => g1.run ops

end WaveV1

namespace Wave

def WaveGame.tickedGame (g : WaveGame) (dt : ℚ) : WaveGame :=
  let g1 := g.passiveStep dt
  { g1 with wave_timer := g1.wave_timer + dt }

def WaveGame.nextId (g : WaveGame) : Int :=
  (g.current_wave_sector + 1) % (g.num_sectors : Int)

theorem passiveStep_wave_active (g : WaveGame) (dt : ℚ) :
    (g.passiveStep dt).wave_active = g.wave_active := rfl

theorem passiveStep_current (g : WaveGame) (dt : ℚ) :
    (g.passiveStep dt).current_wave_sector = g.current_wave_sector := rfl

theorem tickedGame_wave_timer (g : WaveGame) (dt : ℚ) :
    (g.tickedGame dt).wave_timer = g.wave_timer + dt := rfl

theorem update_eq_of_active (g : WaveGame) (dt : ℚ) (cur : CrowdSector)
    (ha : g.wave_active = true)
    (hcur : getSector (g.passiveStep dt).sectors g.current_wave_sector = some cur) :
    g.update dt = ((g.tickedGame dt).standPhase cur).handoff := by
  unfold WaveGame.update WaveGame.tickedGame
  simp only [passiveStep_wave_active, passiveStep_current, ha, if_true, hcur]

theorem update_eq_of_inactive (g : WaveGame) (dt : ℚ)
    (ha : g.wave_active = false) :
    g.update dt = some (g.passiveStep dt) := by
  unfold WaveGame.update
  simp only [passiveStep_wave_active, ha, Bool.false_eq_true, if_false]

theorem handoff_complete (g : WaveGame)
    (ht : g.wave_speed ≤ g.wave_timer)
    (hcirc : g.nextId = g.wave_start_sector) :
    g.handoff = some g.complete_wave := by
  unfold WaveGame.handoff
  rw [decide_eq_true ht]
  simp only [if_true]
  rw [show (g.current_wave_sector + 1) % (g.num_sectors : Int)
        = g.wave_start_sector from hcirc]
  rw [if_pos rfl]

theorem start_wave_fst_eq_can_wave (s : CrowdSector) :
    s.start_wave.1 = s.can_wave := by
  unfold CrowdSector.start_wave
  by_cases h : s.can_wave <;> simp [h]

theorem handoff_interior (g : WaveGame) (next : CrowdSector)
    (ht : g.wave_speed ≤ g.wave_timer)
    (hne : g.nextId ≠ g.wave_start_sector)
    (hnext : getSector g.sectors g.nextId = some next) :
    g.handoff = some (if next.can_wave then
        { g with sectors := setSector g.sectors g.nextId next.start_wave.2
                 current_wave_sector := g.nextId
                 wave_timer := 0 }
      else g.fail_wave) := by
  unfold WaveGame.handoff
  rw [decide_eq_true ht]
  simp only [if_true]
  rw [if_neg (show ¬((g.current_wave_sector + 1) % (g.num_sectors : Int)
        = g.wave_start_sector) from hne)]
  rw [show getSector g.sectors ((g.current_wave_sector + 1) % (g.num_sectors : Int))
        = some next from hnext]
  dsimp only
  rw [start_wave_fst_eq_can_wave]
  unfold WaveGame.nextId
  by_cases hcw : next.can_wave
  · rw [if_pos hcw, if_pos hcw]
  · rw [if_neg (by simpa using hcw), if_neg (by simpa using hcw)]

def fixSector (i : Nat) (st : SectorState) (e : ℚ) : CrowdSector :=
  { sector_id := i, size := 100, state := st, energy := e, fatigue := 0,
    enthusiasm := 0.9, distractions := 0, timer := 0, energy_drain := 0.15 }

def secReady : CrowdSector := fixSector 0 SectorState.idle 1

def secStanding : CrowdSector := fixSector 1 SectorState.standing 1

def secDead : CrowdSector := fixSector 2 SectorState.idle 0

def gHandoff : WaveGame :=
  { venue := Venue.baseball
    venue_config := venueConfig Venue.baseball
    num_sectors := 3
    sectors := [secReady, secStanding, secDead]
    score := 20
    combo := 2
    max_combo := 0
    wave_active := true
    wave_start_sector := 0
    current_wave_sector := 1
    time_elapsed := 1
    successful_waves := 0
    failed_waves := 0
    wave_speed := 0.35
    wave_timer := 0.2
    events := []
    stadium_level := 1
    unlocks := [] }

def gIdle : WaveGame :=
  { gHandoff with wave_active := false, wave_start_sector := -1,
                  current_wave_sector := -1 }

theorem canWaveIffT :
    (∀ s : CrowdSector, s.can_wave = true ↔
       ((s.energy * s.enthusiasm) - (s.fatigue + s.distractions) > 0.3 ∧
        (s.state = SectorState.idle ∨ s.state = SectorState.seated)))
    ∧
    (∀ (g : WaveGame) (sector_id : Int) (sec : CrowdSector),
       g.wave_active = false →
       getSector g.sectors sector_id = some sec →
       (g.start_wave sector_id).map Prod.fst = some sec.can_wave)
    ∧
    (∀ (g : WaveGame) (dt : ℚ) (cur next : CrowdSector) (g3 : WaveGame),
       g.wave_active = true →
       getSector (g.passiveStep dt).sectors g.current_wave_sector = some cur →
       g3 = (g.tickedGame dt).standPhase cur →
       g3.wave_speed ≤ g3.wave_timer →
       g3.nextId ≠ g3.wave_start_sector →
       getSector g3.sectors g3.nextId = some next →
       g.update dt = some (if next.can_wave then
           { g3 with sectors := setSector g3.sectors g3.nextId next.start_wave.2
                     current_wave_sector := g3.nextId
                     wave_timer := 0 }
         else g3.fail_wave)) := by
  refine ⟨?_, ?_, ?_⟩
  · intro s
    unfold CrowdSector.can_wave
    simp [Bool.and_eq_true, decide_eq_true_eq, Bool.or_eq_true, beq_iff_eq]
  · intro g sector_id sec ha hsec
    unfold WaveGame.start_wave
    rw [ha]
    simp only [Bool.false_eq_true, if_false]
    rw [hsec]
    dsimp only
    rw [start_wave_fst_eq_can_wave]
    by_cases h : sec.can_wave <;> simp [h]
  · intro g dt cur next g3 ha hcur hg3 ht hne hnext
    rw [update_eq_of_active g dt cur ha hcur, ← hg3]
    exact handoff_interior g3 next ht hne hnext

theorem canWaveIffT_witness :
    (secReady.can_wave = true ↔
       ((secReady.energy * secReady.enthusiasm) -
          (secReady.fatigue + secReady.distractions) > 0.3 ∧
        (secReady.state = SectorState.idle ∨ secReady.state = SectorState.seated)))
    ∧ (gIdle.start_wave 0).map Prod.fst = some secReady.can_wave
    ∧ gHandoff.update (1/5) = some
        (if ({ secDead with energy := 1/50 } : CrowdSector).can_wave then
           { ((gHandoff.tickedGame (1/5)).standPhase { secStanding with timer := 1/5 }) with
               sectors := setSector
                 ((gHandoff.tickedGame (1/5)).standPhase { secStanding with timer := 1/5 }).sectors
                 ((gHandoff.tickedGame (1/5)).standPhase { secStanding with timer := 1/5 }).nextId
                 ({ secDead with energy := 1/50 } : CrowdSector).start_wave.2
               current_wave_sector :=
                 ((gHandoff.tickedGame (1/5)).standPhase { secStanding with timer := 1/5 }).nextId
               wave_timer := 0 }
         else ((gHandoff.tickedGame (1/5)).standPhase { secStanding with timer := 1/5 }).fail_wave) := by
  refine ⟨canWaveIffT.1 secReady,
    canWaveIffT.2.1 gIdle 0 secReady (by with_unfolding_all decide) (by with_unfolding_all decide),
    canWaveIffT.2.2 gHandoff (1/5) { secStanding with timer := 1/5 }
      { secDead with energy := 1/50 }
      ((gHandoff.tickedGame (1/5)).standPhase { secStanding with timer := 1/5 })
      (by with_unfolding_all decide) (by with_unfolding_all decide) rfl (by with_unfolding_all decide) (by with_unfolding_all decide) (by with_unfolding_all decide)⟩

def scenarioBase : WaveGame := mkGame Venue.baseball (fun _ => 100) (fun _ => 1/2)

/-- Scenario A of the spec: sector 0 made fully ready by direct field
assignment. -/
def scenarioSector0 : CrowdSector :=
  { mkSector 0 100 0.75 (1/2) with
      energy_drain := 0.15
      energy := 1
      enthusiasm := 0.9
      fatigue := 0
      distractions := 0 }

def scenarioA0 : WaveGame :=
  { scenarioBase with sectors := scenarioBase.sectors.set 0 scenarioSector0 }

/-- Scenario A after `startWaveAt(0)`. -/
def scenarioA : WaveGame := ((scenarioA0.start_wave 0).map Prod.snd).getD scenarioA0

def secAnt : CrowdSector := fixSector 0 SectorState.anticipating 1

def gStand : WaveGame :=
  { gHandoff with sectors := [secAnt, secStanding], num_sectors := 2,
                  current_wave_sector := 0, wave_start_sector := 1,
                  wave_timer := 0.1 }

def curStand : CrowdSector := { secAnt with timer := 3/20 }

theorem standUpOnTickT :
    (∀ (g : WaveGame) (dt : ℚ) (cur : CrowdSector),
       g.wave_active = true →
       getSector (g.passiveStep dt).sectors g.current_wave_sector = some cur →
       cur.state = SectorState.anticipating →
       g.wave_timer + dt > 0.2 →
       g.update dt = ((g.tickedGame dt).standPhase cur).handoff ∧
       (g.tickedGame dt).standPhase cur =
         { g.tickedGame dt with
             sectors := setSector (g.tickedGame dt).sectors g.current_wave_sector
               { cur with state := SectorState.standing
                          timer := 0
                          energy := max 0 (cur.energy - cur.energy_drain)
                          fatigue := min 1 (cur.fatigue + 0.1) }
             combo := g.combo + 1
             score := g.score + 10 * ((g.combo : Int) + 1) })
    ∧ (scenarioA0.start_wave 0).map Prod.fst = some true
    ∧ (scenarioA.update (1/4)).map (fun g' =>
        ((g'.sectors.get? 0).map (fun s => s.state), g'.combo, g'.score))
      = some (some SectorState.standing, 1, 10) := by
  refine ⟨?_, by with_unfolding_all decide, by with_unfolding_all decide⟩
  intro g dt cur ha hcur hst htimer
  refine ⟨update_eq_of_active g dt cur ha hcur, ?_⟩
  have hcond : (decide (cur.state = SectorState.anticipating) &&
      decide ((g.tickedGame dt).wave_timer > (0.2 : ℚ))) = true := by
    rw [tickedGame_wave_timer]
    simp [hst, htimer]
  unfold WaveGame.standPhase
  rw [hcond]
  simp only [if_true]
  unfold CrowdSector.stand_up
  rw [decide_eq_true (show cur.state = SectorState.anticipating from hst)]
  simp only [if_true]
  rfl

theorem standUpOnTickT_witness :
    gStand.update (3/20) = ((gStand.tickedGame (3/20)).standPhase curStand).handoff ∧
    (gStand.tickedGame (3/20)).standPhase curStand =
      { gStand.tickedGame (3/20) with
          sectors := setSector (gStand.tickedGame (3/20)).sectors
            gStand.current_wave_sector
            { curStand with state := SectorState.standing
                            timer := 0
                            energy := max 0 (curStand.energy - curStand.energy_drain)
                            fatigue := min 1 (curStand.fatigue + 0.1) }
          combo := gStand.combo + 1
          score := gStand.score + 10 * ((gStand.combo : Int) + 1) } :=
  standUpOnTickT.1 gStand (3/20) curStand (by with_unfolding_all decide)
    (by with_unfolding_all decide) (by with_unfolding_all decide)
    (by with_unfolding_all decide)

/-- `standPhase` either leaves the game unchanged or stands the current
sector up (optionally scoring). -/
theorem standPhase_characterization (g : WaveGame) (cur : CrowdSector) :
    g.standPhase cur = g ∨
    (∃ s : CrowdSector,
       g.standPhase cur = { g with sectors := setSector g.sectors g.current_wave_sector s } ∨
       g.standPhase cur = { g with sectors := setSector g.sectors g.current_wave_sector s
                                   combo := g.combo + 1
                                   score := g.score + 10 * ((g.combo : Int) + 1) }) := by
  unfold WaveGame.standPhase
  by_cases h1 : (decide (cur.state = SectorState.anticipating) &&
      decide (g.wave_timer > (0.2 : ℚ))) = true
  · rw [h1]
    simp only [if_true]
    have hst : cur.state = SectorState.anticipating := by
      have h2 := h1
      rw [Bool.and_eq_true] at h2
      exact of_decide_eq_true h2.1
    unfold CrowdSector.stand_up
    rw [decide_eq_true hst]
    simp only [if_true]
    exact Or.inr ⟨_, Or.inr rfl⟩
  · rw [Bool.not_eq_true] at h1
    rw [h1]
    simp

theorem standPhase_failed_waves (g : WaveGame) (cur : CrowdSector) :
    (g.standPhase cur).failed_waves = g.failed_waves := by
  rcases standPhase_characterization g cur with h | ⟨s, h | h⟩ <;> rw [h]

theorem standPhase_successful_waves (g : WaveGame) (cur : CrowdSector) :
    (g.standPhase cur).successful_waves = g.successful_waves := by
  rcases standPhase_characterization g cur with h | ⟨s, h | h⟩ <;> rw [h]

theorem standPhase_events (g : WaveGame) (cur : CrowdSector) :
    (g.standPhase cur).events = g.events := by
  rcases standPhase_characterization g cur with h | ⟨s, h | h⟩ <;> rw [h]

theorem standPhase_current_wave_sector (g : WaveGame) (cur : CrowdSector) :
    (g.standPhase cur).current_wave_sector = g.current_wave_sector := by
  rcases standPhase_characterization g cur with h | ⟨s, h | h⟩ <;> rw [h]

theorem standPhase_time_elapsed (g : WaveGame) (cur : CrowdSector) :
    (g.standPhase cur).time_elapsed = g.time_elapsed := by
  rcases standPhase_characterization g cur with h | ⟨s, h | h⟩ <;> rw [h]

theorem standPhase_combo_cases (g : WaveGame) (cur : CrowdSector) :
    (g.standPhase cur).combo = g.combo ∨ (g.standPhase cur).combo = g.combo + 1 := by
  rcases standPhase_characterization g cur with h | ⟨s, h | h⟩ <;> rw [h]
  · exact Or.inl rfl
  · exact Or.inl rfl
  · exact Or.inr rfl

def curCircle : CrowdSector := { secStanding with timer := 1/5 }

def gCircle : WaveGame :=
  { gHandoff with num_sectors := 2, sectors := [secReady, secStanding],
                  current_wave_sector := 1, wave_start_sector := 0,
                  wave_timer := 0.2 }

theorem completeWaveOnCircleT :
    ∀ (g : WaveGame) (dt : ℚ) (cur : CrowdSector) (g3 : WaveGame),
      g.wave_active = true →
      getSector (g.passiveStep dt).sectors g.current_wave_sector = some cur →
      g3 = (g.tickedGame dt).standPhase cur →
      g3.wave_speed ≤ g3.wave_timer →
      g3.nextId = g3.wave_start_sector →
      g.update dt = some g3.complete_wave ∧
      g3.complete_wave.wave_active = false ∧
      g3.complete_wave.successful_waves = g.successful_waves + 1 ∧
      g3.complete_wave.score = g3.score + ⌊(100 : ℚ) * (1 + (g3.combo : ℚ) * 0.5)⌋ ∧
      g3.complete_wave.max_combo = max g3.max_combo g3.combo ∧
      g3.complete_wave.combo = g3.combo ∧
      g3.complete_wave.events = g3.events ++
        [{ type := "wave_completed",
           data := EventData.comboBonus g3.combo (100 * (1 + (g3.combo : ℚ) * 0.5)),
           time := g3.time_elapsed }] := by
  intro g dt cur g3 ha hcur hg3 ht hcirc
  refine ⟨?_, rfl, ?_, rfl, rfl, rfl, rfl⟩
  · rw [update_eq_of_active g dt cur ha hcur, ← hg3]
    exact handoff_complete g3 ht hcirc
  · show (g3.successful_waves + 1) = g.successful_waves + 1
    rw [hg3, standPhase_successful_waves]
    rfl

theorem completeWaveOnCircleT_witness :
    gCircle.update (1/5) = some ((gCircle.tickedGame (1/5)).standPhase curCircle).complete_wave ∧
    ((gCircle.tickedGame (1/5)).standPhase curCircle).complete_wave.wave_active = false ∧
    ((gCircle.tickedGame (1/5)).standPhase curCircle).complete_wave.successful_waves =
      gCircle.successful_waves + 1 ∧
    ((gCircle.tickedGame (1/5)).standPhase curCircle).complete_wave.score =
      ((gCircle.tickedGame (1/5)).standPhase curCircle).score +
        ⌊(100 : ℚ) * (1 + (((gCircle.tickedGame (1/5)).standPhase curCircle).combo : ℚ) * 0.5)⌋ ∧
    ((gCircle.tickedGame (1/5)).standPhase curCircle).complete_wave.max_combo =
      max ((gCircle.tickedGame (1/5)).standPhase curCircle).max_combo
        ((gCircle.tickedGame (1/5)).standPhase curCircle).combo ∧
    ((gCircle.tickedGame (1/5)).standPhase curCircle).complete_wave.combo =
      ((gCircle.tickedGame (1/5)).standPhase curCircle).combo ∧
    ((gCircle.tickedGame (1/5)).standPhase curCircle).complete_wave.events =
      ((gCircle.tickedGame (1/5)).standPhase curCircle).events ++
        [{ type := "wave_completed",
           data := EventData.comboBonus ((gCircle.tickedGame (1/5)).standPhase curCircle).combo
             (100 * (1 + (((gCircle.tickedGame (1/5)).standPhase curCircle).combo : ℚ) * 0.5)),
           time := ((gCircle.tickedGame (1/5)).standPhase curCircle).time_elapsed }] :=
  completeWaveOnCircleT gCircle (1/5) curCircle
    ((gCircle.tickedGame (1/5)).standPhase curCircle)
    (by with_unfolding_all decide) (by with_unfolding_all decide) rfl
    (by with_unfolding_all decide) (by with_unfolding_all decide)

/-- Unfolding `update` when the current sector lookup fails. -/
theorem update_none_of_bad_current (g : WaveGame) (dt : ℚ)
    (ha : g.wave_active = true)
    (hcur : getSector (g.passiveStep dt).sectors g.current_wave_sector = none) :
    g.update dt = none := by
  unfold WaveGame.update
  simp only [passiveStep_wave_active, passiveStep_current, ha, if_true, hcur]

/-- The hand-off check before the hand-off interval has elapsed. -/
theorem handoff_wait (g : WaveGame) (ht : ¬ g.wave_speed ≤ g.wave_timer) :
    g.handoff = some g := by
  unfold WaveGame.handoff
  rw [decide_eq_false ht]
  simp

/-- The hand-off check when the next-sector lookup fails. -/
theorem handoff_none_of_bad_next (g : WaveGame)
    (ht : g.wave_speed ≤ g.wave_timer)
    (hne : g.nextId ≠ g.wave_start_sector)
    (hnone : getSector g.sectors g.nextId = none) :
    g.handoff = none := by
  unfold WaveGame.handoff
  rw [decide_eq_true ht]
  simp only [if_true]
  rw [if_neg (show ¬((g.current_wave_sector + 1) % (g.num_sectors : Int)
        = g.wave_start_sector) from hne)]
  rw [show getSector g.sectors ((g.current_wave_sector + 1) % (g.num_sectors : Int))
        = none from hnone]

theorem failWaveEventCx :
    (gHandoff.update (1/5)).map (fun g' => g'.events) =
      some [{ type := "wave_failed", data := EventData.sector 1, time := 6/5 }] ∧
    ((gHandoff.tickedGame (1/5)).standPhase { secStanding with timer := 1/5 }).nextId = 2 ∧
    ({ type := "wave_failed", data := EventData.sector 1, time := 6/5 } : GameEvent)
      ≠ { type := "wave_failed", data := EventData.sector 2, time := 6/5 } := by
  refine ⟨by with_unfolding_all decide, by with_unfolding_all decide,
    by with_unfolding_all decide⟩

theorem failWaveOnBlockedHandoffT :
    (∀ (g : WaveGame) (dt : ℚ) (cur next : CrowdSector) (g3 : WaveGame),
       g.wave_active = true →
       getSector (g.passiveStep dt).sectors g.current_wave_sector = some cur →
       g3 = (g.tickedGame dt).standPhase cur →
       g3.wave_speed ≤ g3.wave_timer →
       g3.nextId ≠ g3.wave_start_sector →
       getSector g3.sectors g3.nextId = some next →
       next.can_wave = false →
       g.update dt = some g3.fail_wave ∧
       g3.fail_wave.wave_active = false ∧
       g3.fail_wave.failed_waves = g.failed_waves + 1 ∧
       g3.fail_wave.combo = 0 ∧
       g3.fail_wave.events = g3.events ++
         [{ type := "wave_failed", data := EventData.sector g.current_wave_sector,
            time := g.time_elapsed + dt }])
    ∧
    (∀ (g : WaveGame) (dt : ℚ) (g' : WaveGame),
       g.update dt = some g' → g'.combo = 0 → g.combo ≠ 0 →
       g'.failed_waves = g.failed_waves + 1 ∧
       g'.events = g.events ++
         [{ type := "wave_failed", data := EventData.sector g.current_wave_sector,
            time := g.time_elapsed + dt }])
    ∧
    (∀ (g : WaveGame) (sector_id : Int) (p : Bool × WaveGame),
       g.start_wave sector_id = some p → p.2.combo = g.combo)
    ∧
    (∀ (g : WaveGame) (sector_id : Int) (g' : WaveGame),
       g.boost_sector sector_id = some g' → g'.combo = g.combo)
    ∧ (∀ (g : WaveGame) (st : Snapshot), (g.load_state st).combo = g.combo)
    ∧ (∀ g : WaveGame, g.get_events.2.combo = g.combo)
    ∧ (∀ g : WaveGame, g.complete_wave.combo = g.combo) := by
  have hfail_ev : ∀ g3 : WaveGame, g3.fail_wave.events = g3.events ++
      [{ type := "wave_failed", data := EventData.sector g3.current_wave_sector,
         time := g3.time_elapsed }] := fun _ => rfl
  refine ⟨?_, ?_, ?_, ?_, fun _ _ => rfl, fun _ => rfl, fun _ => rfl⟩
  · intro g dt cur next g3 ha hcur hg3 ht hne hnext hblock
    refine ⟨?_, rfl, ?_, rfl, ?_⟩
    · rw [update_eq_of_active g dt cur ha hcur, ← hg3,
        handoff_interior g3 next ht hne hnext, hblock]
      simp
    · show g3.failed_waves + 1 = g.failed_waves + 1
      rw [hg3, standPhase_failed_waves]
      rfl
    · rw [hfail_ev g3, hg3, standPhase_events, standPhase_current_wave_sector,
        standPhase_time_elapsed]
      rfl
  · intro g dt g' hupd hc0 hcne
    by_cases hact : g.wave_active = true
    · rcases hcurc : getSector (g.passiveStep dt).sectors g.current_wave_sector with
        _ | cur
      · rw [update_none_of_bad_current g dt hact hcurc] at hupd
        exact absurd hupd (by simp)
      · rw [update_eq_of_active g dt cur hact hcurc] at hupd
        have hG : ((g.tickedGame dt).standPhase cur).combo = g.combo ∨
            ((g.tickedGame dt).standPhase cur).combo = g.combo + 1 :=
          standPhase_combo_cases (g.tickedGame dt) cur
        by_cases hts : ((g.tickedGame dt).standPhase cur).wave_speed ≤
            ((g.tickedGame dt).standPhase cur).wave_timer
        · by_cases hcirc : ((g.tickedGame dt).standPhase cur).nextId =
              ((g.tickedGame dt).standPhase cur).wave_start_sector
          · rw [handoff_complete _ hts hcirc] at hupd
            have : g'.combo = ((g.tickedGame dt).standPhase cur).combo := by
              cases hupd2 : hupd
              rfl
            rcases hG with h | h <;> rw [this, h] at hc0 <;> omega
          · rcases hnextc : getSector ((g.tickedGame dt).standPhase cur).sectors
                ((g.tickedGame dt).standPhase cur).nextId with _ | next
            · rw [handoff_none_of_bad_next _ hts hcirc hnextc] at hupd
              exact absurd hupd (by simp)
            · rw [handoff_interior _ next hts hcirc hnextc] at hupd
              by_cases hcw : next.can_wave = true
              · rw [hcw] at hupd
                simp only [if_true] at hupd
                have : g'.combo = ((g.tickedGame dt).standPhase cur).combo := by
                  cases hupd
                  rfl
                rcases hG with h | h <;> rw [this, h] at hc0 <;> omega
              · rw [Bool.not_eq_true] at hcw
                rw [hcw] at hupd
                simp only [Bool.false_eq_true, if_false] at hupd
                have hg' : g' = ((g.tickedGame dt).standPhase cur).fail_wave := by
                  cases hupd
                  rfl
                subst hg'
                constructor
                · show ((g.tickedGame dt).standPhase cur).failed_waves + 1
                      = g.failed_waves + 1
                  rw [standPhase_failed_waves]
                  rfl
                · rw [hfail_ev, standPhase_events, standPhase_current_wave_sector,
                    standPhase_time_elapsed]
                  rfl
        · rw [handoff_wait _ hts] at hupd
          have : g'.combo = ((g.tickedGame dt).standPhase cur).combo := by
            cases hupd
            rfl
          rcases hG with h | h <;> rw [this, h] at hc0 <;> omega
    · rw [Bool.not_eq_true] at hact
      rw [update_eq_of_inactive g dt hact] at hupd
      have : g'.combo = g.combo := by
        cases hupd
        rfl
      rw [this] at hc0
      exact absurd hc0 hcne
  · intro g sector_id p hsw
    unfold WaveGame.start_wave at hsw
    by_cases hact : g.wave_active = true
    · rw [hact] at hsw
      simp only [if_true, Option.some.injEq] at hsw
      rw [← hsw]
    · rw [Bool.not_eq_true] at hact
      rw [hact] at hsw
      simp only [Bool.false_eq_true, if_false] at hsw
      rcases hget : getSector g.sectors sector_id with _ | sec
      · rw [hget] at hsw
        exact absurd hsw (by simp)
      · rw [hget] at hsw
        dsimp only at hsw
        by_cases hcw : sec.start_wave.1 = true
        · rw [hcw] at hsw
          simp only [if_true, Option.some.injEq] at hsw
          rw [← hsw]
          rfl
        · rw [Bool.not_eq_true] at hcw
          rw [hcw] at hsw
          simp only [Bool.false_eq_true, if_false, Option.some.injEq] at hsw
          rw [← hsw]
  · intro g sector_id g' hb
    unfold WaveGame.boost_sector at hb
    by_cases hin : 0 ≤ sector_id ∧ sector_id < (g.num_sectors : Int)
    · rw [if_pos hin] at hb
      rcases hget : getSector g.sectors sector_id with _ | sec
      · rw [hget] at hb
        exact absurd hb (by simp)
      · rw [hget] at hb
        simp only [Option.some.injEq] at hb
        rw [← hb]
    · rw [if_neg hin] at hb
      simp only [Option.some.injEq] at hb
      rw [← hb]

def curFail : CrowdSector := { secStanding with timer := 1/5 }

def nextFail : CrowdSector := { secDead with energy := 1/50 }

def g3Fail : WaveGame := (gHandoff.tickedGame (1/5)).standPhase curFail

theorem failWaveOnBlockedHandoffT_witness :
    gHandoff.update (1/5) = some g3Fail.fail_wave ∧
    g3Fail.fail_wave.wave_active = false ∧
    g3Fail.fail_wave.failed_waves = gHandoff.failed_waves + 1 ∧
    g3Fail.fail_wave.combo = 0 ∧
    g3Fail.fail_wave.events = g3Fail.events ++
      [{ type := "wave_failed", data := EventData.sector gHandoff.current_wave_sector,
         time := gHandoff.time_elapsed + 1/5 }] :=
  failWaveOnBlockedHandoffT.1 gHandoff (1/5) curFail nextFail g3Fail
    (by with_unfolding_all decide) (by with_unfolding_all decide) rfl
    (by with_unfolding_all decide) (by with_unfolding_all decide)
    (by with_unfolding_all decide) (by with_unfolding_all decide)

def SectorOK (s : CrowdSector) : Prop :=
  0 ≤ s.energy ∧ s.energy ≤ 1 ∧ 0 ≤ s.fatigue ∧ s.fatigue ≤ 1 ∧ 0 ≤ s.distractions

def SectorWF (s : CrowdSector) : Prop := SectorOK s ∧ 0 ≤ s.energy_drain

set_option maxHeartbeats 1600000 in
theorem sectorWF_update (s : CrowdSector) (dt : ℚ) (hdt : 0 ≤ dt)
    (h : SectorWF s) : SectorWF (s.update dt) := by
  obtain ⟨id, size, st, e, f, en, d, t, dr⟩ := s
  obtain ⟨⟨he0, he1, hf0, hf1, hd0⟩, hdr⟩ := h
  dsimp only at he0 he1 hf0 hf1 hd0 hdr
  unfold CrowdSector.update CrowdSector.sit_down
  cases st <;> dsimp only <;> split_ifs <;>
    (try dsimp only) <;>
    refine ⟨⟨?_, ?_, ?_, ?_, ?_⟩, ?_⟩ <;>
      first
        | assumption
        | exact le_max_left _ _
        | exact max_le (by norm_num) (by linarith)
        | exact le_min (by norm_num) (by linarith)
        | exact min_le_left _ _
        | linarith

theorem sectorWF_start_wave (s : CrowdSector) (h : SectorWF s) :
    SectorWF s.start_wave.2 := by
  unfold CrowdSector.start_wave
  split_ifs <;> exact h

theorem sectorWF_stand_up (s : CrowdSector) (h : SectorWF s) :
    SectorWF s.stand_up.2 := by
  obtain ⟨id, size, st, e, f, en, d, t, dr⟩ := s
  obtain ⟨⟨he0, he1, hf0, hf1, hd0⟩, hdr⟩ := h
  dsimp only at he0 he1 hf0 hf1 hd0 hdr
  unfold CrowdSector.stand_up
  split_ifs <;> (try dsimp only) <;>
    (try dsimp only at *) <;>
    refine ⟨⟨?_, ?_, ?_, ?_, ?_⟩, ?_⟩ <;>
      first
        | assumption
        | exact le_max_left _ _
        | exact max_le (by norm_num) (by linarith)
        | exact le_min (by norm_num) (by linarith)
        | exact min_le_left _ _
        | linarith

theorem sectorWF_boost_energy (s : CrowdSector) (amount : ℚ)
    (ham : 0 ≤ amount) (h : SectorWF s) : SectorWF (s.boost_energy amount) := by
  obtain ⟨⟨he0, he1, hf0, hf1, hd0⟩, hdr⟩ := h
  unfold CrowdSector.boost_energy
  refine ⟨⟨?_, ?_, ?_, ?_, ?_⟩, ?_⟩ <;>
    first
      | assumption
      | exact le_max_left _ _
      | exact max_le (by norm_num) (by linarith)
      | exact le_min (by norm_num) (by linarith)
      | exact min_le_left _ _
      | linarith

def GameWF (g : WaveGame) : Prop := ∀ s ∈ g.sectors, SectorWF s

theorem gameWF_set (l : List CrowdSector) (i : Nat) (x : CrowdSector)
    (hl : ∀ s ∈ l, SectorWF s) (hx : SectorWF x) :
    ∀ s ∈ l.set i x, SectorWF s := by
  intro s hs
  rcases List.mem_or_eq_of_mem_set hs with h | h
  · exact hl s h
  · exact h ▸ hx

theorem getSector_mem (l : List CrowdSector) (i : Int) (sec : CrowdSector)
    (h : getSector l i = some sec) : sec ∈ l := by
  unfold getSector at h
  split_ifs at h
  exact List.get?_mem h

theorem gameWF_passiveStep (g : WaveGame) (dt : ℚ) (hdt : 0 ≤ dt)
    (h : GameWF g) : GameWF (g.passiveStep dt) := by
  intro s hs
  rcases List.mem_map.1 hs with ⟨a, ha, rfl⟩
  exact sectorWF_update a dt hdt (h a ha)

theorem gameWF_start_wave (g : WaveGame) (sector_id : Int) (p : Bool × WaveGame)
    (h : GameWF g) (hsw : g.start_wave sector_id = some p) : GameWF p.2 := by
  unfold WaveGame.start_wave at hsw
  split_ifs at hsw
  · cases hsw
    exact h
  · rcases hget : getSector g.sectors sector_id with _ | sec
    · rw [hget] at hsw
      exact absurd hsw (by simp)
    · rw [hget] at hsw
      dsimp only at hsw
      split_ifs at hsw <;> cases hsw
      · exact fun s hs => gameWF_set g.sectors _ _ h
          (sectorWF_start_wave sec (h sec (getSector_mem _ _ _ hget))) s hs
      · exact h

theorem standPhase_sectors_cases (g : WaveGame) (cur : CrowdSector) :
    (g.standPhase cur).sectors = g.sectors ∨
    (g.standPhase cur).sectors =
      setSector g.sectors g.current_wave_sector cur.stand_up.2 := by
  unfold WaveGame.standPhase
  by_cases h1 : (decide (cur.state = SectorState.anticipating) &&
      decide (g.wave_timer > (0.2 : ℚ))) = true
  · rw [h1]
    simp only [if_true]
    by_cases h2 : cur.stand_up.1 = true
    · rw [h2]
      simp
    · rw [Bool.not_eq_true] at h2
      rw [h2]
      simp
  · rw [Bool.not_eq_true] at h1
    rw [h1]
    simp

theorem gameWF_standPhase (g : WaveGame) (cur : CrowdSector) (h : GameWF g)
    (hcur : SectorWF cur) : GameWF (g.standPhase cur) := by
  intro s hs
  rcases standPhase_sectors_cases g cur with hc | hc
  · rw [hc] at hs
    exact h s hs
  · rw [hc] at hs
    exact gameWF_set g.sectors _ _ h (sectorWF_stand_up cur hcur) s hs

theorem gameWF_handoff (g g' : WaveGame) (h : GameWF g)
    (hh : g.handoff = some g') : GameWF g' := by
  by_cases ht : g.wave_speed ≤ g.wave_timer
  · by_cases hcirc : g.nextId = g.wave_start_sector
    · rw [handoff_complete g ht hcirc] at hh
      cases hh
      exact h
    · rcases hget : getSector g.sectors g.nextId with _ | next
      · rw [handoff_none_of_bad_next g ht hcirc hget] at hh
        exact absurd hh (by simp)
      · rw [handoff_interior g next ht hcirc hget] at hh
        by_cases hcw : next.can_wave = true
        · rw [hcw] at hh
          simp only [if_true, Option.some.injEq] at hh
          rw [← hh]
          exact fun s hs => gameWF_set g.sectors _ _ h
            (sectorWF_start_wave next (h next (getSector_mem _ _ _ hget))) s hs
        · rw [Bool.not_eq_true] at hcw
          rw [hcw] at hh
          simp only [Bool.false_eq_true, if_false, Option.some.injEq] at hh
          rw [← hh]
          exact h
  · rw [handoff_wait g ht] at hh
    cases hh
    exact h

theorem gameWF_update (g : WaveGame) (dt : ℚ) (g' : WaveGame) (hdt : 0 ≤ dt)
    (h : GameWF g) (hu : g.update dt = some g') : GameWF g' := by
  by_cases hact : g.wave_active = true
  · rcases hcur : getSector (g.passiveStep dt).sectors g.current_wave_sector with _ | cur
    · rw [update_none_of_bad_current g dt hact hcur] at hu
      exact absurd hu (by simp)
    · rw [update_eq_of_active g dt cur hact hcur] at hu
      have hWFt : GameWF (g.tickedGame dt) :=
        fun s hs => gameWF_passiveStep g dt hdt h s hs
      have hcurWF : SectorWF cur :=
        gameWF_passiveStep g dt hdt h cur (getSector_mem _ _ _ hcur)
      exact gameWF_handoff _ _ (gameWF_standPhase _ cur hWFt hcurWF) hu
  · rw [Bool.not_eq_true] at hact
    rw [update_eq_of_inactive g dt hact] at hu
    cases hu
    exact gameWF_passiveStep g dt hdt h

theorem gameWF_boost (g : WaveGame) (sector_id : Int) (g' : WaveGame)
    (h : GameWF g) (hb : g.boost_sector sector_id = some g') : GameWF g' := by
  unfold WaveGame.boost_sector at hb
  split_ifs at hb
  · rcases hget : getSector g.sectors sector_id with _ | sec
    · rw [hget] at hb
      exact absurd hb (by simp)
    · rw [hget] at hb
      cases hb
      exact fun s hs => gameWF_set g.sectors _ _ h
        (sectorWF_boost_energy sec 0.3 (by norm_num)
          (h sec (getSector_mem _ _ _ hget))) s hs
  · cases hb
    exact h

theorem gameWF_step (g : WaveGame) (op : Op) (g' : WaveGame) (hop : op.wf)
    (h : GameWF g) (hs : g.step op = some g') : GameWF g' := by
  cases op with
  | update dt => exact gameWF_update g dt g' hop h hs
  | start_wave sector_id =>
      rcases hsw : g.start_wave sector_id with _ | p
      · rw [WaveGame.step, hsw] at hs
        exact absurd hs (by simp)
      · rw [WaveGame.step, hsw] at hs
        cases hs
        exact gameWF_start_wave g sector_id p h hsw
  | boost sector_id => exact gameWF_boost g sector_id g' h hs

theorem gameWF_run (ops : List Op) :
    ∀ (g g' : WaveGame), (∀ op ∈ ops, op.wf) → GameWF g →
      g.run ops = some g' → GameWF g' := by
  induction ops with
  | nil =>
      intro g g' hops h hr
      rw [WaveGame.run] at hr
      cases hr
      exact h
  | cons op ops ih =>
      intro g g' hops h hr
      rw [WaveGame.run] at hr
      rcases hstep : g.step op with _ | g1
      · rw [hstep] at hr
        exact absurd hr (by simp)
      · rw [hstep] at hr
        exact ih g1 g' (fun o ho => hops o (List.mem_cons_of_mem _ ho))
          (gameWF_step g op g1 (hops op (List.mem_cons_self _ _)) h hstep) hr

theorem gameWF_mkGame (venue : Venue) (sz : Nat → Nat) (r : Nat → ℚ) :
    GameWF (mkGame venue sz r) := by
  intro s hs
  rcases List.mem_map.1 hs with ⟨i, _, rfl⟩
  refine ⟨⟨?_, ?_, ?_, ?_, ?_⟩, ?_⟩ <;> cases venue <;>
    norm_num [mkSector, venueConfig]

theorem sectorFieldInvariantsT :
    ∀ (venue : Venue) (sz : Nat → Nat) (r : Nat → ℚ) (ops : List Op)
      (g' : WaveGame),
      (∀ op ∈ ops, op.wf) →
      (mkGame venue sz r).run ops = some g' →
      ∀ s ∈ g'.sectors,
        0 ≤ s.energy ∧ s.energy ≤ 1 ∧ 0 ≤ s.fatigue ∧ s.fatigue ≤ 1 ∧
          0 ≤ s.distractions := by
  intro venue sz r ops g' hops hr s hs
  exact (gameWF_run ops _ g' hops (gameWF_mkGame venue sz r) hr s hs).1

instance decidableOpWf : (op : Op) → Decidable op.wf
  | Op.update dt => inferInstanceAs (Decidable (0 ≤ dt))
  | Op.start_wave _ => inferInstanceAs (Decidable True)
  | Op.boost _ => inferInstanceAs (Decidable True)

def c5ops : List Op := [Op.update 1, Op.start_wave 0, Op.update (1/4)]

def c5game : WaveGame := mkGame Venue.baseball (fun _ => 100) (fun _ => 1/2)

def c5res : WaveGame := (c5game.run c5ops).getD c5game

theorem sectorFieldInvariantsT_witness :
    (∀ op ∈ c5ops, op.wf) ∧
    (∀ s ∈ c5res.sectors,
      0 ≤ s.energy ∧ s.energy ≤ 1 ∧ 0 ≤ s.fatigue ∧ s.fatigue ≤ 1 ∧
        0 ≤ s.distractions) :=
  ⟨by with_unfolding_all decide,
   sectorFieldInvariantsT Venue.baseball (fun _ => 100) (fun _ => 1/2) c5ops c5res
     (by with_unfolding_all decide) (by with_unfolding_all decide)⟩

def gLoad : WaveGame := { gHandoff with combo := 5, failed_waves := 7 }

def snapCombo : Snapshot :=
  { emptySnapshot with score := some 42, combo := some 2, failed_waves := some 3 }

theorem loadOverwritesComboCx :
    (gLoad.load_state snapCombo).combo = 5 ∧
    (gLoad.load_state snapCombo).failed_waves = 7 ∧
    snapCombo.combo = some 2 ∧ snapCombo.failed_waves = some 3 ∧
    (5 : Nat) ≠ 2 ∧ (7 : Nat) ≠ 3 := by
  refine ⟨rfl, rfl, rfl, rfl, by decide, by decide⟩

theorem loadFrameT :
    ∀ (g : WaveGame) (st : Snapshot),
      (g.load_state st).score = jsOrInt st.score 0 ∧
      (g.load_state st).max_combo = jsOrNat st.max_combo 0 ∧
      (g.load_state st).successful_waves = jsOrNat st.successful_waves 0 ∧
      (g.load_state st).stadium_level = jsOrNat st.stadium_level 1 ∧
      (g.load_state st).unlocks = st.unlocks.getD [] ∧
      (g.load_state st).sectors = g.sectors ∧
      (g.load_state st).combo = g.combo ∧
      (g.load_state st).failed_waves = g.failed_waves ∧
      (g.load_state st).venue = g.venue ∧
      (g.load_state st).venue_config = g.venue_config ∧
      (g.load_state st).num_sectors = g.num_sectors ∧
      (g.load_state st).wave_active = g.wave_active ∧
      (g.load_state st).wave_start_sector = g.wave_start_sector ∧
      (g.load_state st).current_wave_sector = g.current_wave_sector ∧
      (g.load_state st).wave_timer = g.wave_timer ∧
      (g.load_state st).wave_speed = g.wave_speed ∧
      (g.load_state st).time_elapsed = g.time_elapsed ∧
      (g.load_state st).events = g.events :=
  fun _ _ => ⟨rfl, rfl, rfl, rfl, rfl, rfl, rfl, rfl, rfl, rfl, rfl, rfl, rfl,
    rfl, rfl, rfl, rfl, rfl⟩

theorem startWaveOutOfRangeT :
    ∀ (g : WaveGame) (sector_id : Int),
      g.wave_active = false →
      g.sectors.length = g.num_sectors →
      (sector_id < 0 ∨ (g.num_sectors : Int) ≤ sector_id) →
      g.start_wave sector_id = none ∧ g.boost_sector sector_id = some g := by
  intro g sector_id ha hlen hout
  constructor
  · unfold WaveGame.start_wave
    rw [ha]
    simp only [Bool.false_eq_true, if_false]
    have hget : getSector g.sectors sector_id = none := by
      unfold getSector
      rcases hout with h | h
      · rw [if_neg (by omega)]
      · rw [if_pos (by omega)]
        apply List.get?_eq_none.2
        rw [hlen]
        omega
    rw [hget]
  · unfold WaveGame.boost_sector
    rw [if_neg (by omega)]

theorem startWaveOutOfRangeT_witness :
    gIdle.start_wave 5 = none ∧ gIdle.boost_sector 5 = some gIdle :=
  startWaveOutOfRangeT gIdle 5 (by with_unfolding_all decide)
    (by with_unfolding_all decide) (by with_unfolding_all decide)

theorem loadGameEmptyResetT :
    ∀ g : WaveGame,
      g.load_game (some emptySnapshot) =
        (LoadStatus.loaded,
         { g with score := 0, max_combo := 0, successful_waves := 0,
                  stadium_level := 1, unlocks := [] }) :=
  fun _ => rfl

theorem mascotNbhd_spec (target n : Int) (hn : 3 ≤ n) (h0 : 0 ≤ target)
    (h1 : target < n) :
    (mascotNbhd target n).Nodup ∧ (mascotNbhd target n).length = 3 ∧
    ∀ x ∈ mascotNbhd target n, 0 ≤ x ∧ x < n := by
  have hpred : (target + n - 1) % n = if target = 0 then n - 1 else target - 1 := by
    by_cases h : target = 0
    · rw [if_pos h, h]
      have he : (0 : Int) + n - 1 = n - 1 := by ring
      rw [he, Int.emod_eq_of_lt (by omega) (by omega)]
    · rw [if_neg h]
      have he : target + n - 1 = (target - 1) + n * 1 := by ring
      rw [he, Int.add_mul_emod_self_left, Int.emod_eq_of_lt (by omega) (by omega)]
  have hsucc : (target + 1) % n = if target = n - 1 then 0 else target + 1 := by
    by_cases h : target = n - 1
    · rw [if_pos h, h]
      have he : n - 1 + 1 = n := by ring
      rw [he, Int.emod_self]
    · rw [if_neg h, Int.emod_eq_of_lt (by omega) (by omega)]
  refine ⟨?_, rfl, ?_⟩
  · simp only [mascotNbhd, List.nodup_cons, List.mem_cons, List.mem_singleton,
      List.not_mem_nil, or_false, List.nodup_nil, and_true, not_or,
      not_false_iff]
    rw [hpred, hsucc]
    rcases eq_or_ne target 0 with hz | hz <;>
      rcases eq_or_ne target (n - 1) with hl | hl
    · clear hpred hsucc
      exact ⟨⟨by omega, by omega⟩, by omega⟩
    · rw [if_pos hz, if_neg hl]
      clear hpred hsucc
      exact ⟨⟨by omega, by omega⟩, by omega⟩
    · rw [if_neg hz, if_pos hl]
      clear hpred hsucc
      exact ⟨⟨by omega, by omega⟩, by omega⟩
    · rw [if_neg hz, if_neg hl]
      clear hpred hsucc
      exact ⟨⟨by omega, by omega⟩, by omega⟩
  · intro x hx
    simp only [mascotNbhd, List.mem_cons, List.mem_singleton, List.not_mem_nil,
      or_false] at hx
    rcases hx with rfl | rfl | rfl
    · rw [hpred]
      rcases eq_or_ne target 0 with hz | hz
      · rw [if_pos hz]
        clear hpred hsucc
        exact ⟨by omega, by omega⟩
      · rw [if_neg hz]
        clear hpred hsucc
        exact ⟨by omega, by omega⟩
    · clear hpred hsucc
      exact ⟨by omega, by omega⟩
    · rw [hsucc]
      rcases eq_or_ne target (n - 1) with hl | hl
      · rw [if_pos hl]
        clear hpred hsucc
        exact ⟨by omega, by omega⟩
      · rw [if_neg hl]
        clear hpred hsucc
        exact ⟨by omega, by omega⟩

theorem get_map_state (f : CrowdSector → CrowdSector)
    (hf : ∀ s, (f s).state = s.state) (l : List CrowdSector) (i : Nat) :
    ((l.map f).get? i).map (fun s => s.state) =
      (l.get? i).map (fun s => s.state) := by
  rw [List.get?_map]
  cases l.get? i <;> simp [hf]

theorem stadiumEventsT :
    (∀ (g : WaveGame) (target : Int),
       3 ≤ g.num_sectors → 0 ≤ target → target < (g.num_sectors : Int) →
       (mascotNbhd target (g.num_sectors : Int)).Nodup ∧
       (mascotNbhd target (g.num_sectors : Int)).length = 3 ∧
       (∀ x ∈ mascotNbhd target (g.num_sectors : Int),
          0 ≤ x ∧ x < (g.num_sectors : Int)) ∧
       (g.trigger_mascot target).sectors = g.sectors.map (fun s =>
         if (s.sector_id : Int) ∈ mascotNbhd target (g.num_sectors : Int) then
           { s with distractions := s.distractions + 0.3 }
         else s) ∧
       (∀ i : Nat, ((g.trigger_mascot target).sectors.get? i).map (fun s => s.state)
          = (g.sectors.get? i).map (fun s => s.state)) ∧
       (g.trigger_mascot target).events = g.events ++
         [{ type := "mascot", data := EventData.sector target,
            time := g.time_elapsed }])
    ∧
    (∀ g : WaveGame,
       (g.trigger_scoreboard).sectors = g.sectors.map (fun s =>
         { s with energy := min 1 (s.energy + 0.2) }) ∧
       (∀ i : Nat, ((g.trigger_scoreboard).sectors.get? i).map (fun s => s.state)
          = (g.sectors.get? i).map (fun s => s.state)) ∧
       (g.trigger_scoreboard).events = g.events ++
         [{ type := "scoreboard", data := EventData.null,
            time := g.time_elapsed }]) := by
  constructor
  · intro g target h3 ht0 ht1
    have hn : 3 ≤ (g.num_sectors : Int) := by exact_mod_cast h3
    obtain ⟨hnd, hlen, hrange⟩ := mascotNbhd_spec target _ hn ht0 ht1
    refine ⟨hnd, hlen, hrange, rfl, ?_, rfl⟩
    intro i
    exact get_map_state (fun s =>
      if (s.sector_id : Int) ∈ mascotNbhd target (g.num_sectors : Int) then
        { s with distractions := s.distractions + 0.3 }
      else s) (fun s => by dsimp only; split <;> rfl) g.sectors i
  · intro g
    refine ⟨rfl, ?_, rfl⟩
    intro i
    exact get_map_state (fun s => { s with energy := min 1 (s.energy + 0.2) })
      (fun s => rfl) g.sectors i

theorem stadiumEventsT_witness :
    ((mascotNbhd 1 (gHandoff.num_sectors : Int)).Nodup ∧
     (mascotNbhd 1 (gHandoff.num_sectors : Int)).length = 3 ∧
     (∀ x ∈ mascotNbhd 1 (gHandoff.num_sectors : Int),
        0 ≤ x ∧ x < (gHandoff.num_sectors : Int)) ∧
     (gHandoff.trigger_mascot 1).sectors = gHandoff.sectors.map (fun s =>
       if (s.sector_id : Int) ∈ mascotNbhd 1 (gHandoff.num_sectors : Int) then
         { s with distractions := s.distractions + 0.3 }
       else s) ∧
     (∀ i : Nat, ((gHandoff.trigger_mascot 1).sectors.get? i).map (fun s => s.state)
        = (gHandoff.sectors.get? i).map (fun s => s.state)) ∧
     (gHandoff.trigger_mascot 1).events = gHandoff.events ++
       [{ type := "mascot", data := EventData.sector 1,
          time := gHandoff.time_elapsed }]) ∧
    ((gHandoff.trigger_scoreboard).sectors = gHandoff.sectors.map (fun s =>
       { s with energy := min 1 (s.energy + 0.2) }) ∧
     (∀ i : Nat, ((gHandoff.trigger_scoreboard).sectors.get? i).map (fun s => s.state)
        = (gHandoff.sectors.get? i).map (fun s => s.state)) ∧
     (gHandoff.trigger_scoreboard).events = gHandoff.events ++
       [{ type := "scoreboard", data := EventData.null,
          time := gHandoff.time_elapsed }]) :=
  ⟨stadiumEventsT.1 gHandoff 1 (by decide) (by decide) (by decide),
   stadiumEventsT.2 gHandoff⟩

end Wave

namespace WaveV1

/-- As in the newer copy: the state after clock advance, passive updates
and the `wave_timer += dt` line. -/
def WaveGame.tickedGame (g : WaveGame) (dt : ℚ) : WaveGame :=
  let g1 := g.passiveStep dt
  { g1 with wave_timer := g1.wave_timer + dt }

/-- `next_sector_id` of the older copy's hand-off check. -/
def WaveGame.nextId (g : WaveGame) : Int :=
  (g.current_wave_sector + 1) % (g.num_sectors : Int)

theorem v1_passiveStep_wave_active (g : WaveGame) (dt : ℚ) :
    (g.passiveStep dt).wave_active = g.wave_active := rfl

theorem v1_passiveStep_current (g : WaveGame) (dt : ℚ) :
    (g.passiveStep dt).current_wave_sector = g.current_wave_sector := rfl

theorem v1_update_eq_of_active (g : WaveGame) (dt : ℚ) (cur : CrowdSector)
    (ha : g.wave_active = true)
    (hcur : getSector (g.passiveStep dt).sectors g.current_wave_sector = some cur) :
    g.update dt = ((g.tickedGame dt).standPhase cur).handoff := by
  unfold WaveGame.update WaveGame.tickedGame
  simp only [v1_passiveStep_wave_active, v1_passiveStep_current, ha, if_true, hcur]

theorem v1_update_eq_of_inactive (g : WaveGame) (dt : ℚ)
    (ha : g.wave_active = false) :
    g.update dt = some (g.passiveStep dt) := by
  unfold WaveGame.update
  simp only [v1_passiveStep_wave_active, ha, Bool.false_eq_true, if_false]

theorem v1_update_none_of_bad_current (g : WaveGame) (dt : ℚ)
    (ha : g.wave_active = true)
    (hcur : getSector (g.passiveStep dt).sectors g.current_wave_sector = none) :
    g.update dt = none := by
  unfold WaveGame.update
  simp only [v1_passiveStep_wave_active, v1_passiveStep_current, ha, if_true, hcur]

theorem v1_start_wave_fst_eq_can_wave (s : CrowdSector) :
    s.start_wave.1 = s.can_wave := by
  unfold CrowdSector.start_wave
  by_cases h : s.can_wave <;> simp [h]

theorem v1_handoff_complete (g : WaveGame)
    (ht : g.wave_speed ≤ g.wave_timer)
    (hcirc : g.nextId = g.wave_start_sector) :
    g.handoff = some g.complete_wave := by
  unfold WaveGame.handoff
  rw [decide_eq_true ht]
  simp only [if_true]
  rw [show (g.current_wave_sector + 1) % (g.num_sectors : Int)
        = g.wave_start_sector from hcirc]
  rw [if_pos rfl]

theorem v1_handoff_interior (g : WaveGame) (next : CrowdSector)
    (ht : g.wave_speed ≤ g.wave_timer)
    (hne : g.nextId ≠ g.wave_start_sector)
    (hnext : getSector g.sectors g.nextId = some next) :
    g.handoff = some (if next.can_wave then
        { g with sectors := setSector g.sectors g.nextId next.start_wave.2
                 current_wave_sector := g.nextId
                 wave_timer := 0 }
      else g.fail_wave) := by
  unfold WaveGame.handoff
  rw [decide_eq_true ht]
  simp only [if_true]
  rw [if_neg (show ¬((g.current_wave_sector + 1) % (g.num_sectors : Int)
        = g.wave_start_sector) from hne)]
  rw [show getSector g.sectors ((g.current_wave_sector + 1) % (g.num_sectors : Int))
        = some next from hnext]
  dsimp only
  rw [v1_start_wave_fst_eq_can_wave]
  unfold WaveGame.nextId
  by_cases hcw : next.can_wave
  · rw [if_pos hcw, if_pos hcw]
  · rw [if_neg (by simpa using hcw), if_neg (by simpa using hcw)]

theorem v1_handoff_none_of_bad_next (g : WaveGame)
    (ht : g.wave_speed ≤ g.wave_timer)
    (hne : g.nextId ≠ g.wave_start_sector)
    (hnone : getSector g.sectors g.nextId = none) :
    g.handoff = none := by
  unfold WaveGame.handoff
  rw [decide_eq_true ht]
  simp only [if_true]
  rw [if_neg (show ¬((g.current_wave_sector + 1) % (g.num_sectors : Int)
        = g.wave_start_sector) from hne)]
  rw [show getSector g.sectors ((g.current_wave_sector + 1) % (g.num_sectors : Int))
        = none from hnone]

theorem v1_handoff_wait (g : WaveGame) (ht : ¬ g.wave_speed ≤ g.wave_timer) :
    g.handoff = some g := by
  unfold WaveGame.handoff
  rw [decide_eq_false ht]
  simp

end WaveV1

namespace WaveEquiv

open Wave (SectorState EventData GameEvent Op)

/-- Forget the `energy_drain` field: the only per-sector state the older
engine copy does not carry. -/
def projSector (s : Wave.CrowdSector) : WaveV1.CrowdSector :=
  { sector_id := s.sector_id
    size := s.size
    state := s.state
    energy := s.energy
    fatigue := s.fatigue
    enthusiasm := s.enthusiasm
    distractions := s.distractions
    timer := s.timer }

/-- Forget the venue fields: the remaining state is shared by the two
engine copies. -/
def projGame (g : Wave.WaveGame) : WaveV1.WaveGame :=
  { num_sectors := g.num_sectors
    sectors := g.sectors.map projSector
    score := g.score
    combo := g.combo
    max_combo := g.max_combo
    wave_active := g.wave_active
    wave_start_sector := g.wave_start_sector
    current_wave_sector := g.current_wave_sector
    time_elapsed := g.time_elapsed
    successful_waves := g.successful_waves
    failed_waves := g.failed_waves
    wave_speed := g.wave_speed
    wave_timer := g.wave_timer
    events := g.events
    stadium_level := g.stadium_level
    unlocks := g.unlocks }

/-- All sectors carry the older copy's hard-coded stand-up drain. -/
def Drain02 (g : Wave.WaveGame) : Prop :=
  ∀ s ∈ g.sectors, s.energy_drain = 0.2

theorem projSector_state (s : Wave.CrowdSector) :
    (projSector s).state = s.state := rfl

theorem projSector_can_wave (s : Wave.CrowdSector) :
    (projSector s).can_wave = s.can_wave := rfl

set_option maxHeartbeats 1600000 in
theorem projSector_update (s : Wave.CrowdSector) (dt : ℚ) :
    projSector (s.update dt) = (projSector s).update dt := by
  obtain ⟨id, size, st, e, f, en, d, t, dr⟩ := s
  unfold Wave.CrowdSector.update WaveV1.CrowdSector.update
    Wave.CrowdSector.sit_down WaveV1.CrowdSector.sit_down projSector
  cases st <;> dsimp only <;> split_ifs <;> rfl

theorem projSector_start_wave (s : Wave.CrowdSector) :
    (projSector s).start_wave = (s.start_wave.1, projSector s.start_wave.2) := by
  unfold Wave.CrowdSector.start_wave WaveV1.CrowdSector.start_wave
  rw [projSector_can_wave]
  by_cases h : s.can_wave = true
  · rw [h]
    simp only [if_true]
    rfl
  · rw [Bool.not_eq_true] at h
    rw [h]
    simp only [Bool.false_eq_true, if_false]

theorem projSector_stand_up (s : Wave.CrowdSector)
    (hdr : s.energy_drain = 0.2) :
    (projSector s).stand_up = (s.stand_up.1, projSector s.stand_up.2) := by
  unfold Wave.CrowdSector.stand_up WaveV1.CrowdSector.stand_up
  rw [projSector_state]
  by_cases h : decide (s.state = SectorState.anticipating) = true
  · rw [h]
    simp only [if_true]
    rw [hdr]
    rfl
  · rw [Bool.not_eq_true] at h
    rw [h]
    simp only [Bool.false_eq_true, if_false]

theorem projSector_boost (s : Wave.CrowdSector) (amount : ℚ) :
    (projSector s).boost_energy amount = projSector (s.boost_energy amount) := rfl

theorem proj_getSector (l : List Wave.CrowdSector) (i : Int) :
    WaveV1.getSector (l.map projSector) i =
      (Wave.getSector l i).map projSector := by
  unfold Wave.getSector WaveV1.getSector
  split_ifs
  · rw [List.get?_map]
  · rfl

theorem proj_setSector (l : List Wave.CrowdSector) (i : Int)
    (x : Wave.CrowdSector) :
    (Wave.setSector l i x).map projSector =
      WaveV1.setSector (l.map projSector) i (projSector x) := by
  unfold Wave.setSector WaveV1.setSector
  exact List.map_set

theorem proj_schedule_event (g : Wave.WaveGame) (t : String) (d : EventData) :
    projGame (g.schedule_event t d) = (projGame g).schedule_event t d := rfl

theorem proj_complete_wave (g : Wave.WaveGame) :
    projGame g.complete_wave = (projGame g).complete_wave := rfl

theorem proj_fail_wave (g : Wave.WaveGame) :
    projGame g.fail_wave = (projGame g).fail_wave := rfl

theorem proj_passiveStep (g : Wave.WaveGame) (dt : ℚ) :
    projGame (g.passiveStep dt) = (projGame g).passiveStep dt := by
  have hsec : (g.sectors.map (fun s => s.update dt)).map projSector
      = (g.sectors.map projSector).map (fun s => s.update dt) := by
    rw [List.map_map, List.map_map]
    exact congrArg (fun h => List.map h g.sectors)
      (funext fun s => projSector_update s dt)
  unfold Wave.WaveGame.passiveStep WaveV1.WaveGame.passiveStep projGame
  dsimp only
  rw [hsec]

theorem proj_tickedGame (g : Wave.WaveGame) (dt : ℚ) :
    projGame (g.tickedGame dt) = (projGame g).tickedGame dt := by
  unfold Wave.WaveGame.tickedGame WaveV1.WaveGame.tickedGame
  rw [← proj_passiveStep]
  rfl

theorem proj_standPhase (g : Wave.WaveGame) (cur : Wave.CrowdSector)
    (hdr : cur.energy_drain = 0.2) :
    projGame (g.standPhase cur) = (projGame g).standPhase (projSector cur) := by
  unfold Wave.WaveGame.standPhase WaveV1.WaveGame.standPhase
  rw [projSector_state]
  rw [show (projGame g).wave_timer = g.wave_timer from rfl]
  by_cases h : (decide (cur.state = SectorState.anticipating) &&
      decide (g.wave_timer > (0.2 : ℚ))) = true
  · rw [h]
    simp only [if_true]
    rw [projSector_stand_up cur hdr]
    dsimp only
    by_cases h2 : cur.stand_up.1 = true
    · rw [h2]
      simp only [if_true]
      unfold projGame
      dsimp only
      rw [proj_setSector]
    · rw [Bool.not_eq_true] at h2
      rw [h2]
      simp only [Bool.false_eq_true, if_false]
      unfold projGame
      dsimp only
      rw [proj_setSector]
  · rw [Bool.not_eq_true] at h
    rw [h]
    simp only [Bool.false_eq_true, if_false]

theorem proj_handoff (g : Wave.WaveGame) :
    (g.handoff).map projGame = (projGame g).handoff := by
  by_cases ht : g.wave_speed ≤ g.wave_timer
  · by_cases hcirc : g.nextId = g.wave_start_sector
    · rw [Wave.handoff_complete g ht hcirc,
        WaveV1.v1_handoff_complete (projGame g) ht hcirc]
      simp only [Option.map_some']
      rw [proj_complete_wave]
    · cases hget : Wave.getSector g.sectors g.nextId with
      | none =>
          have hv1 : WaveV1.getSector (projGame g).sectors (projGame g).nextId
              = none := by
            rw [show (projGame g).sectors = g.sectors.map projSector from rfl,
              proj_getSector]
            rw [show (projGame g).nextId = g.nextId from rfl, hget]
            rfl
          rw [Wave.handoff_none_of_bad_next g ht hcirc hget,
            WaveV1.v1_handoff_none_of_bad_next (projGame g) ht hcirc hv1]
          rfl
      | some next =>
          have hv1 : WaveV1.getSector (projGame g).sectors (projGame g).nextId
              = some (projSector next) := by
            rw [show (projGame g).sectors = g.sectors.map projSector from rfl,
              proj_getSector]
            rw [show (projGame g).nextId = g.nextId from rfl, hget]
            rfl
          rw [Wave.handoff_interior g next ht hcirc hget,
            WaveV1.v1_handoff_interior (projGame g) (projSector next) ht hcirc hv1]
          simp only [Option.map_some']
          rw [projSector_can_wave]
          by_cases hcw : next.can_wave = true
          · rw [hcw]
            simp only [if_true]
            rw [projSector_start_wave]
            dsimp only
            unfold projGame
            dsimp only
            rw [proj_setSector]
            rfl
          · rw [Bool.not_eq_true] at hcw
            rw [hcw]
            simp only [Bool.false_eq_true, if_false]
            rw [proj_fail_wave]
  · rw [Wave.handoff_wait g ht, WaveV1.v1_handoff_wait (projGame g) ht]
    rfl

theorem proj_start_wave (g : Wave.WaveGame) (sector_id : Int) :
    (g.start_wave sector_id).map (fun p => (p.1, projGame p.2)) =
      (projGame g).start_wave sector_id := by
  unfold Wave.WaveGame.start_wave WaveV1.WaveGame.start_wave
  rw [show (projGame g).wave_active = g.wave_active from rfl]
  by_cases ha : g.wave_active = true
  · rw [ha]
    simp only [if_true, Option.map_some']
  · rw [Bool.not_eq_true] at ha
    rw [ha]
    simp only [Bool.false_eq_true, if_false]
    rw [show (projGame g).sectors = g.sectors.map projSector from rfl,
      proj_getSector]
    cases hget : Wave.getSector g.sectors sector_id with
    | none => rfl
    | some sec =>
        simp only [Option.map_some']
        rw [projSector_start_wave]
        dsimp only
        by_cases hcw : sec.start_wave.1 = true
        · rw [hcw]
          simp only [if_true, Option.map_some']
          rw [proj_schedule_event]
          unfold projGame
          dsimp only
          rw [proj_setSector]
        · rw [Bool.not_eq_true] at hcw
          rw [hcw]
          simp only [Bool.false_eq_true, if_false, Option.map_some']

theorem proj_boost (g : Wave.WaveGame) (sector_id : Int) :
    (g.boost_sector sector_id).map projGame =
      (projGame g).boost_sector sector_id := by
  unfold Wave.WaveGame.boost_sector WaveV1.WaveGame.boost_sector
  rw [show (projGame g).num_sectors = g.num_sectors from rfl]
  by_cases hin : 0 ≤ sector_id ∧ sector_id < (g.num_sectors : Int)
  · rw [if_pos hin, if_pos hin]
    rw [show (projGame g).sectors = g.sectors.map projSector from rfl,
      proj_getSector]
    cases hget : Wave.getSector g.sectors sector_id with
    | none => rfl
    | some sec =>
        simp only [Option.map_some']
        unfold projGame
        dsimp only
        rw [proj_setSector, projSector_boost]
  · rw [if_neg hin, if_neg hin]
    rfl

theorem drain_update_sector (s : Wave.CrowdSector) (dt : ℚ) :
    (s.update dt).energy_drain = s.energy_drain := by
  obtain ⟨id, size, st, e, f, en, d, t, dr⟩ := s
  unfold Wave.CrowdSector.update Wave.CrowdSector.sit_down
  cases st <;> dsimp only <;> split_ifs <;> rfl

theorem drain_start_sector (s : Wave.CrowdSector) :
    s.start_wave.2.energy_drain = s.energy_drain := by
  unfold Wave.CrowdSector.start_wave
  split_ifs <;> rfl

theorem drain_stand_sector (s : Wave.CrowdSector) :
    s.stand_up.2.energy_drain = s.energy_drain := by
  unfold Wave.CrowdSector.stand_up
  split_ifs <;> rfl

theorem drain02_set (l : List Wave.CrowdSector) (i : Nat)
    (x : Wave.CrowdSector) (hl : ∀ s ∈ l, s.energy_drain = 0.2)
    (hx : x.energy_drain = 0.2) : ∀ s ∈ l.set i x, s.energy_drain = 0.2 := by
  intro s hs
  rcases List.mem_or_eq_of_mem_set hs with h | h
  · exact hl s h
  · exact h ▸ hx

theorem drain02_passiveStep (g : Wave.WaveGame) (dt : ℚ) (h : Drain02 g) :
    Drain02 (g.passiveStep dt) := by
  intro s hs
  rcases List.mem_map.1 hs with ⟨a, ha, rfl⟩
  rw [drain_update_sector]
  exact h a ha

theorem drain02_standPhase (g : Wave.WaveGame) (cur : Wave.CrowdSector)
    (h : Drain02 g) (hcur : cur.energy_drain = 0.2) :
    Drain02 (g.standPhase cur) := by
  intro s hs
  rcases Wave.standPhase_sectors_cases g cur with hc | hc
  · rw [hc] at hs
    exact h s hs
  · rw [hc] at hs
    exact drain02_set g.sectors _ _ h (by rw [drain_stand_sector]; exact hcur) s hs

theorem drain02_handoff (g g' : Wave.WaveGame) (h : Drain02 g)
    (hh : g.handoff = some g') : Drain02 g' := by
  by_cases ht : g.wave_speed ≤ g.wave_timer
  · by_cases hcirc : g.nextId = g.wave_start_sector
    · rw [Wave.handoff_complete g ht hcirc] at hh
      cases hh
      exact h
    · rcases hget : Wave.getSector g.sectors g.nextId with _ | next
      · rw [Wave.handoff_none_of_bad_next g ht hcirc hget] at hh
        exact absurd hh (by simp)
      · rw [Wave.handoff_interior g next ht hcirc hget] at hh
        by_cases hcw : next.can_wave = true
        · rw [hcw] at hh
          simp only [if_true, Option.some.injEq] at hh
          rw [← hh]
          exact fun s hs => drain02_set g.sectors _ _ h
            (by rw [drain_start_sector]
                exact h next (Wave.getSector_mem _ _ _ hget)) s hs
        · rw [Bool.not_eq_true] at hcw
          rw [hcw] at hh
          simp only [Bool.false_eq_true, if_false, Option.some.injEq] at hh
          rw [← hh]
          exact h
  · rw [Wave.handoff_wait g ht] at hh
    cases hh
    exact h

theorem drain02_update (g : Wave.WaveGame) (dt : ℚ) (g' : Wave.WaveGame)
    (h : Drain02 g) (hu : g.update dt = some g') : Drain02 g' := by
  by_cases hact : g.wave_active = true
  · rcases hcur : Wave.getSector (g.passiveStep dt).sectors g.current_wave_sector
        with _ | cur
    · rw [Wave.update_none_of_bad_current g dt hact hcur] at hu
      exact absurd hu (by simp)
    · rw [Wave.update_eq_of_active g dt cur hact hcur] at hu
      have hP : Drain02 (g.passiveStep dt) := drain02_passiveStep g dt h
      have hcur02 : cur.energy_drain = 0.2 :=
        hP cur (Wave.getSector_mem _ _ _ hcur)
      exact drain02_handoff ((g.tickedGame dt).standPhase cur) g'
        (drain02_standPhase (g.tickedGame dt) cur (fun s hs => hP s hs) hcur02) hu
  · rw [Bool.not_eq_true] at hact
    rw [Wave.update_eq_of_inactive g dt hact] at hu
    cases hu
    exact drain02_passiveStep g dt h

theorem drain02_step (g : Wave.WaveGame) (op : Op) (g' : Wave.WaveGame)
    (h : Drain02 g) (hs : g.step op = some g') : Drain02 g' := by
  cases op with
  | update dt => exact drain02_update g dt g' h hs
  | start_wave sector_id =>
      rcases hsw : g.start_wave sector_id with _ | p
      · rw [Wave.WaveGame.step, hsw] at hs
        exact absurd hs (by simp)
      · rw [Wave.WaveGame.step, hsw] at hs
        cases hs
        unfold Wave.WaveGame.start_wave at hsw
        split_ifs at hsw
        · cases hsw
          exact h
        · rcases hget : Wave.getSector g.sectors sector_id with _ | sec
          · rw [hget] at hsw
            exact absurd hsw (by simp)
          · rw [hget] at hsw
            dsimp only at hsw
            split_ifs at hsw <;> cases hsw
            · exact fun s hs => drain02_set g.sectors _ _ h
                (by rw [drain_start_sector]
                    exact h sec (Wave.getSector_mem _ _ _ hget)) s hs
            · exact h
  | boost sector_id =>
      rw [Wave.WaveGame.step] at hs
      unfold Wave.WaveGame.boost_sector at hs
      split_ifs at hs
      · rcases hget : Wave.getSector g.sectors sector_id with _ | sec
        · rw [hget] at hs
          exact absurd hs (by simp)
        · rw [hget] at hs
          cases hs
          exact fun s hsm => drain02_set g.sectors sector_id.toNat
            (sec.boost_energy 0.3) h
            (h sec (Wave.getSector_mem _ _ _ hget)) s hsm
      · cases hs
        exact h

theorem proj_update (g : Wave.WaveGame) (dt : ℚ) (hD : Drain02 g) :
    (g.update dt).map projGame = (projGame g).update dt := by
  by_cases ha : g.wave_active = true
  · have hsecs : ((projGame g).passiveStep dt).sectors
        = (g.passiveStep dt).sectors.map projSector := by
      rw [← proj_passiveStep]
      rfl
    cases hcur : Wave.getSector (g.passiveStep dt).sectors g.current_wave_sector
        with
    | none =>
        have hv1 : WaveV1.getSector ((projGame g).passiveStep dt).sectors
            (projGame g).current_wave_sector = none := by
          rw [hsecs, proj_getSector,
            show (projGame g).current_wave_sector = g.current_wave_sector from rfl,
            hcur]
          rfl
        rw [Wave.update_none_of_bad_current g dt ha hcur,
          WaveV1.v1_update_none_of_bad_current (projGame g) dt ha hv1]
        rfl
    | some cur =>
        have hv1 : WaveV1.getSector ((projGame g).passiveStep dt).sectors
            (projGame g).current_wave_sector = some (projSector cur) := by
          rw [hsecs, proj_getSector,
            show (projGame g).current_wave_sector = g.current_wave_sector from rfl,
            hcur]
          rfl
        rw [Wave.update_eq_of_active g dt cur ha hcur,
          WaveV1.v1_update_eq_of_active (projGame g) dt (projSector cur) ha hv1]
        have hdr : cur.energy_drain = 0.2 :=
          drain02_passiveStep g dt hD cur (Wave.getSector_mem _ _ _ hcur)
        rw [← proj_tickedGame, ← proj_standPhase _ _ hdr]
        exact proj_handoff _
  · rw [Bool.not_eq_true] at ha
    rw [Wave.update_eq_of_inactive g dt ha,
      WaveV1.v1_update_eq_of_inactive (projGame g) dt ha]
    simp only [Option.map_some']
    rw [proj_passiveStep]

theorem proj_step (g : Wave.WaveGame) (op : Op) (hD : Drain02 g) :
    (g.step op).map projGame = (projGame g).step op := by
  cases op with
  | update dt => exact proj_update g dt hD
  | start_wave sector_id =>
      show ((g.start_wave sector_id).map Prod.snd).map projGame
          = ((projGame g).start_wave sector_id).map Prod.snd
      rw [← proj_start_wave]
      cases g.start_wave sector_id <;> rfl
  | boost sector_id => exact proj_boost g sector_id

theorem proj_run (ops : List Op) :
    ∀ g : Wave.WaveGame, Drain02 g →
      (g.run ops).map projGame = (projGame g).run ops := by
  induction ops with
  | nil =>
      intro g hD
      rfl
  | cons op ops ih =>
      intro g hD
      rw [Wave.WaveGame.run, WaveV1.WaveGame.run]
      cases hstep : g.step op with
      | none =>
          have hv1 : (projGame g).step op = none := by
            rw [← proj_step g op hD, hstep]
            rfl
          rw [hv1]
          rfl
      | some g1 =>
          have hv1 : (projGame g).step op = some (projGame g1) := by
            rw [← proj_step g op hD, hstep]
            rfl
          rw [hv1]
          exact ih g1 (drain02_step g op g1 hD hstep)

theorem drain02_mkGame (sz : Nat → Nat) (r : Nat → ℚ) :
    Drain02 (Wave.mkGame Wave.Venue.soccer sz r) := by
  intro s hs
  rcases List.mem_map.1 hs with ⟨i, _, rfl⟩
  rfl

theorem proj_mkGame (sz : Nat → Nat) (r1 r2 : Nat → ℚ)
    (h : ∀ i, r2 i = r1 i + 1/6) :
    projGame (Wave.mkGame Wave.Venue.soccer sz r2) = WaveV1.mkGame 20 sz r1 := by
  unfold Wave.mkGame WaveV1.mkGame projGame Wave.venueConfig
  dsimp only
  simp only [WaveV1.WaveGame.mk.injEq, and_true, true_and]
  rw [List.map_map]
  refine List.map_congr_left ?_
  intro i _
  dsimp only [Function.comp]
  unfold Wave.mkSector WaveV1.mkSector projSector
  dsimp only
  simp only [WaveV1.CrowdSector.mk.injEq, and_true, true_and]
  rw [h i]
  ring

def cxOps : List Op := [Op.start_wave 0, Op.update (1/4)]

def v1Default : WaveV1.WaveGame := WaveV1.mkGame 16 (fun _ => 100) (fun _ => 9/10)

def v2Default : Wave.WaveGame :=
  Wave.mkGame Wave.Venue.baseball (fun _ => 100) (fun _ => 9/10)

theorem engineDivergenceCx :
    (v1Default.run cxOps).map (fun g => (g.sectors.get? 0).map (fun s => s.energy))
      = some (some (13/40)) ∧
    (v2Default.run cxOps).map (fun g => (g.sectors.get? 0).map (fun s => s.energy))
      = some (some (3/8)) ∧
    ((13 : ℚ)/40) ≠ 3/8 :=
  ⟨by with_unfolding_all decide, by with_unfolding_all decide, by norm_num⟩

theorem v1v2EquivalenceT :
    (∀ (sz : Nat → Nat) (r1 r2 : Nat → ℚ),
       (∀ i, r2 i = r1 i + 1/6) →
       projGame (Wave.mkGame Wave.Venue.soccer sz r2) = WaveV1.mkGame 20 sz r1)
    ∧
    (∀ (g : Wave.WaveGame) (op : Op), Drain02 g →
       (g.step op).map projGame = (projGame g).step op)
    ∧
    (∀ (sz : Nat → Nat) (r1 r2 : Nat → ℚ) (ops : List Op),
       (∀ i, r2 i = r1 i + 1/6) →
       ((Wave.mkGame Wave.Venue.soccer sz r2).run ops).map projGame =
         (WaveV1.mkGame 20 sz r1).run ops) := by
  refine ⟨proj_mkGame, proj_step, ?_⟩
  intro sz r1 r2 ops h
  rw [proj_run ops _ (drain02_mkGame sz r2), proj_mkGame sz r1 r2 h]

def wOps : List Op := [Op.start_wave 0, Op.update (3/10)]

theorem v1v2EquivalenceT_witness :
    ((Wave.mkGame Wave.Venue.soccer (fun _ => 100) (fun _ => 7/10 + 1/6)).run wOps).map
        projGame =
      (WaveV1.mkGame 20 (fun _ => 100) (fun _ => 7/10)).run wOps :=
  v1v2EquivalenceT.2.2 (fun _ => 100) (fun _ => 7/10) (fun _ => 7/10 + 1/6) wOps
    (fun _ => rfl)

end WaveEquiv
